import Mathlib

/-!
Shallow embedding of the gameperson Game Boy emulator core
(src/cpu.rs, src/memory.rs, src/gpu.rs), with proofs for claims about it.

Conventions used throughout the embedding:

* u8 and u16 values are represented as `Nat`, with explicit masking
  (`% 256` / `&&& 255`, `% 65536`) at the points where the Rust code wraps
  (`wrapping_add`, `wrapping_sub`, `overflowing_add`, shifts on u8, casts).
  Plain u16 `+= 1` / `-= 1` in the source is modelled with two's-complement
  wrapping (`% 65536`), i.e. release-build semantics.
* A Rust panic (`panic!`, `unimplemented!`, out-of-bounds `Vec` index) is
  modelled by `Option`: a function that can panic returns `none` exactly in
  those cases.
* Mutable byte stores (work RAM, zero page, VRAM, OAM, the framebuffer,
  and the flat CPU-visible byte store) are total functions `Nat → Nat`
  updated pointwise with `upd`.
* SDL side effects (`println!`, canvas/texture updates in
  `Gpu::display`) have no observable effect on the emulator state and are
  omitted.
-/

namespace Gameperson

/-- Pointwise update of a byte store. -/
def upd (f : Nat → Nat) (a v : Nat) : Nat → Nat :=
  fun x => if x = a then v else f x

theorem upd_same (f : Nat → Nat) (a v : Nat) : upd f a v a = v := by
  simp [upd]

theorem upd_other (f : Nat → Nat) (a v x : Nat) (h : x ≠ a) : upd f a v x = f x := by
  simp [upd, h]

/-! ## GPU (src/gpu.rs) -/

/-- The interrupt kinds `Gpu::display` can report (gpu.rs `enum Interrupt`). -/
inductive Interrupt where
  | VBlank
  | Status
deriving DecidableEq

/-- The `Gpu` struct of gpu.rs.  `vram` is 0x2000 bytes, `oam` 0xa0 bytes,
`buffer` the 256x256 RGBA8888 framebuffer; all are modelled as total
functions indexed the way the Rust arrays are indexed. -/
structure Gpu where
  vram : Nat → Nat
  oam : Nat → Nat
  buffer : Nat → Nat
  ly : Nat
  scy : Nat
  scx : Nat
  lcdc : Nat
  stat : Nat
  lyc : Nat
  bgp : Nat
  obp0 : Nat
  obp1 : Nat
  cycles : Nat

/-- `Gpu::new`. -/
def Gpu.new : Gpu :=
  { vram := fun _ => 0
    oam := fun _ => 0
    buffer := fun _ => 0
    ly := 0
    scy := 0
    scx := 0
    lcdc := 0
    stat := 0
    lyc := 0
    bgp := 0
    obp0 := 0
    obp1 := 0
    cycles := 0 }

/-- `Gpu::read` (gpu.rs).  The match arms, in source order. -/
def Gpu.read (g : Gpu) (address : Nat) : Nat :=
  if 0x8000 ≤ address ∧ address ≤ 0x9fff then g.vram (address - 0x8000)
  else if 0xfe00 ≤ address ∧ address ≤ 0xfe9f then g.oam (address - 0xfe00)
  else if address = 0xff40 then g.lcdc
  else if address = 0xff41 then g.stat
  else if address = 0xff42 then g.scy
  else if address = 0xff43 then g.scx
  else if address = 0xff44 then g.ly
  else if address = 0xff45 then g.lyc
  else if address = 0xff47 then g.bgp
  else if address = 0xff48 then g.obp0
  else if address = 0xff49 then g.obp1
  else 0

/-- `Gpu::write` (gpu.rs).  Note the 0xff44 arm sets `ly` to the written
value (it does not reset it to 0). -/
def Gpu.write (g : Gpu) (address value : Nat) : Gpu :=
  if 0x8000 ≤ address ∧ address ≤ 0x9fff then
    {g with vram := upd g.vram (address - 0x8000) value}
  else if 0xfe00 ≤ address ∧ address ≤ 0xfe9f then
    {g with oam := upd g.oam (address - 0xfe00) value}
  else if address = 0xff40 then {g with lcdc := value}
  else if address = 0xff41 then {g with stat := value}
  else if address = 0xff42 then {g with scy := value}
  else if address = 0xff43 then {g with scx := value}
  else if address = 0xff44 then {g with ly := value}
  else if address = 0xff45 then {g with lyc := value}
  else if address = 0xff47 then {g with bgp := value}
  else if address = 0xff48 then {g with obp0 := value}
  else if address = 0xff49 then {g with obp1 := value}
  else g

/-- `Gpu::get_tile`: 16 tile bytes from VRAM; LCDC bit 4 selects
0x8000-based unsigned or 0x9000-based signed (`tile_num as i8`) indexing. -/
def Gpu.get_tile (g : Gpu) (tile_num : Nat) : List Nat :=
  let tile_start :=
    if g.lcdc &&& 0b10000 = 0 then
      if tile_num < 128 then 0x9000 + tile_num * 16
      else 0x9000 + tile_num * 16 - 4096
    else 0x8000 + tile_num * 16
  (List.range 16).map (fun i => g.vram (tile_start - 0x8000 + i))

/-- `Gpu::get_sprite`: 16 sprite tile bytes from VRAM at `addr`. -/
def Gpu.get_sprite (g : Gpu) (addr : Nat) : List Nat :=
  (List.range 16).map (fun i => g.vram (addr + i - 0x8000))

/-- `Gpu::palette_color`: colour index 0 is transparent (`None`); otherwise
the palette register selects one of the four fixed RGBA shades. -/
def palette_color (palette color_index : Nat) : Option (Nat × Nat × Nat × Nat) :=
  if color_index = 0 then none
  else
    let color_number := (palette >>> (color_index <<< 1)) &&& 0b11
    some (if color_number = 0 then (0xff, 0xe0, 0xf8, 0xd0)
      else if color_number = 1 then (0xff, 0x88, 0xc0, 0x70)
      else if color_number = 2 then (0xff, 0x34, 0x68, 0x56)
      else (0xff, 0x10, 0x18, 0x20))

/-- Frame-buffer effect of `Gpu::show_tile`: the double pixel loop, writing
4 bytes per pixel.  `show_tile` only mutates `self.buffer`, so it is modelled
as a function on the buffer. -/
def show_tile_buf (tile : List Nat) (x y : Nat) (buf0 : Nat → Nat) : Nat → Nat :=
  (List.range 8).foldl (fun bufr row =>
    let b0 := tile.getD (row * 2) 0
    let b1 := tile.getD (1 + row * 2) 0
    (List.range 8).foldl (fun buf col =>
      let p0 := (b0 >>> (7 - col)) &&& 1
      let p1 := ((b1 >>> (7 - col)) &&& 1) <<< 1
      let color : Nat × Nat × Nat × Nat :=
        if p0 = 0 ∧ p1 = 0 then (0xff, 0xe0, 0xf8, 0xd0)
        else if p1 = 0 then (0xff, 0x88, 0xc0, 0x70)
        else if p0 = 0 then (0xff, 0x34, 0x68, 0x56)
        else (0xff, 0x10, 0x18, 0x20)
      let idx := (x + col + (y + row) * 256) * 4
      upd (upd (upd (upd buf idx color.1) (idx + 1) color.2.1) (idx + 2) color.2.2.1)
        (idx + 3) color.2.2.2) bufr) buf0

/-- `Gpu::show_tile`. -/
def Gpu.show_tile (g : Gpu) (tile : List Nat) (x y : Nat) : Gpu :=
  {g with buffer := show_tile_buf tile x y g.buffer}

/-- Frame-buffer effect of `Gpu::show_sprite` (reads `scx`/`scy`, writes
only `self.buffer`; colour index 0 is skipped as transparent). -/
def show_sprite_buf (sprite : List Nat) (x y palette scx scy : Nat)
    (buf0 : Nat → Nat) : Nat → Nat :=
  (List.range 8).foldl (fun bufr row =>
    let b0 := sprite.getD (row * 2) 0
    let b1 := sprite.getD (1 + row * 2) 0
    (List.range 8).foldl (fun buf col =>
      let color_index := ((b0 >>> (7 - col)) &&& 1) ||| (((b1 >>> (7 - col)) &&& 1) <<< 1)
      match palette_color palette color_index with
      | none => buf
      | some color =>
        let xx := x + col + scx
        let yy := y + row + scy
        let idx := (xx + yy * 256) * 4
        upd (upd (upd (upd buf idx color.1) (idx + 1) color.2.1) (idx + 2) color.2.2.1)
          (idx + 3) color.2.2.2) bufr) buf0

/-- `Gpu::show_sprite`. -/
def Gpu.show_sprite (g : Gpu) (sprite : List Nat) (x y palette : Nat) : Gpu :=
  {g with buffer := show_sprite_buf sprite x y palette g.scx g.scy g.buffer}

/-- `u8::reverse_bits`, used for sprite X-flip. -/
def reverse_bits8 (v : Nat) : Nat :=
  (List.range 8).foldl (fun acc i => acc ||| (((v >>> i) &&& 1) <<< (7 - i))) 0

/-- Swapping adjacent elements, the `chunks_exact_mut(2)` + `pair.reverse()`
loop of the sprite Y-flip. -/
def swap_adjacent : List Nat → List Nat
  | a :: b :: rest => b :: a :: swap_adjacent rest
  | l => l

/-- One iteration of the OAM loop in `Gpu::display` (sprite entry `k`,
attribute bytes at 0xfe00 + 4k).  The `continue` guard skips the entry
when the offset-adjusted position (u8 `wrapping_sub`) is 0 or out of
range. -/
def Gpu.sprite_step (g : Gpu) (k : Nat) : Gpu :=
  let attr := 0xfe00 + 4 * k
  let x := (g.read (attr + 1) + 248) % 256
  let y := (g.read attr + 240) % 256
  if x = 0 ∨ y = 0 ∨ 168 ≤ x ∨ 160 ≤ y then g
  else
    let tile_index := g.read (attr + 2)
    let flags := g.read (attr + 3)
    let palette := if flags &&& 0b10000 = 0 then g.obp0 else g.obp1
    let sprite_addr := 0x8000 + tile_index * 16
    let sprite0 := g.get_sprite sprite_addr
    let sprite1 := if flags &&& 0b100000 ≠ 0 then sprite0.map reverse_bits8 else sprite0
    let sprite2 := if flags &&& 0b1000000 ≠ 0 then swap_adjacent sprite1.reverse else sprite1
    g.show_sprite sprite2 x y palette

/-- The full OAM sprite loop of `Gpu::display` (40 entries). -/
def Gpu.sprite_pass (g : Gpu) : Gpu :=
  (List.range 40).foldl Gpu.sprite_step g

/-- The background tile-map loop of `Gpu::display` (runs when `ly = 0`):
1024 tiles of the map selected by LCDC bit 3. -/
def Gpu.bg_pass (g : Gpu) : Gpu :=
  let base := if g.lcdc &&& 0b1000 = 0 then 0x9800 else 0x9c00
  (List.range 1024).foldl (fun g2 i =>
    let tile_num := g2.read (base + i)
    g2.show_tile (g2.get_tile tile_num) ((i % 32) * 8) ((i / 32) * 8)) g

/-- `Gpu::display` (gpu.rs): returns immediately when the LCD is disabled;
otherwise accumulates `cycles`, advances LY once 116 ticks have
accumulated (wrapping 153 → 0), redraws the background when LY = 0,
draws sprites when LCDC bit 1 is set, and reports a VBlank interrupt
whenever LY ends up equal to 144.  The canvas/texture presentation on the
VBlank path is host I/O and is omitted. -/
def Gpu.display (g : Gpu) (cycles : Nat) : Gpu × Option Interrupt :=
  if g.lcdc &&& 0b10000000 = 0 then (g, none)
  else
    let g1 : Gpu := {g with cycles := g.cycles + cycles}
    let g2 : Gpu :=
      if 116 ≤ g1.cycles then
        {g1 with ly := if g1.ly = 153 then 0 else g1.ly + 1, cycles := 0}
      else g1
    let g3 := if g2.ly = 0 then g2.bg_pass else g2
    let g4 := if g3.lcdc &&& 0b10 ≠ 0 then g3.sprite_pass else g3
    if g4.ly = 144 then (g4, some Interrupt.VBlank) else (g4, none)

/-! ## Memory bus (src/memory.rs) -/

/-- The Nintendo logo bytes returned by `Memory::load` for
0x0104..=0x0133 when no mapping covers the address. -/
def nintendo_logo : List Nat :=
  [0xce, 0xed, 0x66, 0x66, 0xcc, 0x0d, 0x00, 0x0b, 0x03, 0x73, 0x00, 0x83,
   0x00, 0x0c, 0x00, 0x0d, 0x00, 0x08, 0x11, 0x1f, 0x88, 0x89, 0x00, 0x0e,
   0xdc, 0xcc, 0x6e, 0xe6, 0xdd, 0xdd, 0xd9, 0x99, 0xbb, 0xbb, 0x67, 0x63,
   0x6e, 0x0e, 0xec, 0xcc, 0xdd, 0xdc, 0x99, 0x9f, 0xbb, 0xb9, 0x33, 0x3e]

/-- A `Mapping` of memory.rs: the only `Region` implementation in the
repository is `Rom` (a byte vector whose `write` discards), so the region
is modelled as its byte list; the address range is
`start .. start + data.length` exactly as `Memory::map` builds it. -/
structure Mapping where
  start : Nat
  data : List Nat

/-- `Range::contains` on a mapping's address range. -/
def Mapping.covers (mp : Mapping) (a : Nat) : Bool :=
  decide (mp.start ≤ a ∧ a < mp.start + mp.data.length)

/-- The `Memory` struct of memory.rs. -/
structure Memory where
  gpu : Gpu
  ram : Nat → Nat
  zero_page : Nat → Nat
  io_registers : Nat → Nat
  cartridge : List Nat
  ie : Nat
  joy_action : Nat
  joy_direction : Nat
  mappings : List Mapping

/-- `Memory::mapping`: the first mapping whose range contains the address. -/
def Memory.mapping (st : Memory) (a : Nat) : Option Mapping :=
  st.mappings.find? (fun mp => mp.covers a)

/-- The mapping-list effect of `Memory::unmap`: remove the first mapping
whose range contains `address`. -/
def unmap_mappings (ms : List Mapping) (address : Nat) : List Mapping :=
  match ms.findIdx? (fun mp => mp.covers address) with
  | some pos => ms.eraseIdx pos
  | none => ms

/-- `Memory::unmap`: remove the first mapping containing `address`
(memory.rs prints but otherwise only calls `mappings.remove(pos)`). -/
def Memory.unmap (st : Memory) (address : Nat) : Memory :=
  {st with mappings := unmap_mappings st.mappings address}

/-- The joypad read at 0xff00 in `Memory::load`. -/
def Memory.joyp (st : Memory) : Nat :=
  let high_nibble := st.io_registers 0 &&& 0xf0
  if st.io_registers 0 &&& 0b100000 = 0 then
    high_nibble ||| (((st.joy_action &&& 0x0f) ^^^ 255) &&& 0xf)
  else if st.io_registers 0 &&& 0b10000 = 0 then
    high_nibble ||| (((st.joy_direction &&& 0x0f) ^^^ 255) &&& 0xf)
  else 0xff

/-- `Memory::load` (memory.rs).  A mapped region wins; otherwise the match
arms, in source order (arm order does not matter: the patterns are
disjoint).  `cartridge.get?` models the `self.cartridge[address]` index,
which panics (`none`) when the `cartridge` vector is too short. -/
def Memory.load (st : Memory) (address : Nat) : Option Nat :=
  match st.mapping address with
  | some mp => mp.data.get? (address - mp.start)
  | none =>
    if address ≤ 0x00ff then st.cartridge.get? address
    else if address ≤ 0x0103 then some 0
    else if address ≤ 0x7fff then
      if address ≤ 0x0133 then nintendo_logo.get? (address - 0x0104) else some 0
    else if address ≤ 0x9fff then some (st.gpu.read address)
    else if address = 0xff00 then some st.joyp
    else if address = 0xff40 ∨ address = 0xff41 ∨ address = 0xff42 then
      some (st.gpu.read address)
    else if address = 0xff44 ∨ address = 0xff45 then some (st.gpu.read address)
    else if 0xff47 ≤ address ∧ address ≤ 0xff48 then some (st.gpu.read address)
    else if 0xc000 ≤ address ∧ address ≤ 0xdfff then some (st.ram (address - 0xc000))
    else if 0xe000 ≤ address ∧ address ≤ 0xfdff then
      some (st.ram (address - 0x2000 - 0xc000))
    else if 0xfe00 ≤ address ∧ address ≤ 0xfe9f then some (st.gpu.read address)
    else if 0xff80 ≤ address ∧ address ≤ 0xfffe then
      some (st.zero_page (address - 0xff80))
    else if address = 0xffff then some st.ie
    else some 0

/-- The loop body sequence of `Memory::dma`: for each offset `i` in the
list, read `base + i` through the bus and write the byte to OAM at
0xfe00 + i (a failing load is a panic). -/
def dma_loop (base : Nat) : List Nat → Memory → Option Memory
  | [], st => some st
  | i :: rest, st =>
    match st.load (base + i) with
    | none => none
    | some b => dma_loop base rest {st with gpu := st.gpu.write (0xfe00 + i) b}

/-- `Memory::dma`: 160-byte copy from `addr << 8` to OAM. -/
def Memory.dma (st : Memory) (addr : Nat) : Option Memory :=
  dma_loop (addr <<< 8) (List.range 160) st

/-- `Memory::write` (memory.rs).  The initial dispatch to a covering
mapping is a no-op (the only `Region`, `Rom`, discards writes); then the
match, in source order.  The 0xff44 arm is `unimplemented!()` (panic,
modelled as `none`); 0xff46 starts the OAM DMA; 0xff50 unmaps the first
mapping containing 0x0000. -/
def Memory.write (st : Memory) (address value : Nat) : Option Memory :=
  if 0x8000 ≤ address ∧ address ≤ 0x9fff then
    some {st with gpu := st.gpu.write address value}
  else if 0xc000 ≤ address ∧ address ≤ 0xdfff then
    some {st with ram := upd st.ram (address - 0xc000) value}
  else if 0xfe00 ≤ address ∧ address ≤ 0xfe9f then
    some {st with gpu := st.gpu.write address value}
  else if address = 0xff00 then
    some {st with io_registers := upd st.io_registers 0 value}
  else if address = 0xff01 ∨ address = 0xff02 then some st
  else if address = 0xff40 ∨ address = 0xff41 ∨ address = 0xff42 then
    some {st with gpu := st.gpu.write address value}
  else if address = 0xff44 then none
  else if address = 0xff45 then
    some {st with gpu := st.gpu.write address value}
  else if address = 0xff46 then st.dma value
  else if 0xff47 ≤ address ∧ address ≤ 0xff48 then
    some {st with gpu := st.gpu.write address value}
  else if address = 0xff50 then some (st.unmap 0x0000)
  else if 0xff80 ≤ address ∧ address ≤ 0xfffe then
    some {st with zero_page := upd st.zero_page (address - 0xff80) value}
  else if address = 0xffff then some {st with ie := value}
  else some st

/-- Applying a sequence of bus writes in order (reads through
`Memory::load` take `&self` and never mutate the bus). -/
def Memory.apply_writes : List (Nat × Nat) → Memory → Option Memory
  | [], st => some st
  | (a, v) :: rest, st =>
    match st.write a v with
    | none => none
    | some st1 => Memory.apply_writes rest st1

/-- The bus state right after startup in main.rs with a boot ROM: a fresh
`Memory::new(Gpu::new())` (internal `cartridge` vector left empty), the
boot ROM mapped at 0x0000 first, then the cartridge ROM also mapped at
0x0000. -/
def Memory.startup (boot cart : List Nat) : Memory :=
  { gpu := Gpu.new
    ram := fun _ => 0
    zero_page := fun _ => 0
    io_registers := fun _ => 0
    cartridge := []
    ie := 0
    joy_action := 0
    joy_direction := 0
    mappings := [⟨0, boot⟩, ⟨0, cart⟩] }

/-! ## CPU (src/cpu.rs)

The CPU-level claims concern register, flag, cycle and WRAM behaviour of
`Cpu::decode`.  For them the bus reached through `Rc<RefCell<Memory>>` is
modelled as a flat byte store `Store` (a total function `Nat → Nat` whose
reads are masked to a byte): quantifying over every such store covers
every byte pattern the real bus can return, and on the work-RAM region
0xc000..=0xdfff used by the concrete scenarios `Memory::load`/`write`
behave exactly as a flat store. -/

def Store : Type := Nat → Nat

/-- A byte read from the CPU-visible store. -/
def Store.load (m : Store) (a : Nat) : Nat := m a % 256

/-- A byte write to the CPU-visible store. -/
def Store.write (m : Store) (a v : Nat) : Store := upd m a v

/-- The 8-bit registers of `enum Register8` (cpu.rs). -/
inductive Register8 where
  | A | B | C | D | E | H | L

/-- `enum Location` (cpu.rs).  The `DoubleRegister` variant is only ever
used by the (unused, panicking) `load16`/`store16` paths and is omitted;
`Cpu::index` produces only `Register` and `Address`. -/
inductive Location where
  | Register : Register8 → Location
  | Address : Nat → Location

/-- The `Registers` struct of cpu.rs. -/
structure Registers where
  flags : Nat
  a : Nat
  b : Nat
  c : Nat
  d : Nat
  e : Nat
  h : Nat
  l : Nat

/-- `Registers::default()`. -/
def Registers.default : Registers := ⟨0, 0, 0, 0, 0, 0, 0, 0⟩

def Registers.hl (r : Registers) : Nat := (r.h <<< 8) ||| r.l

def Registers.bc (r : Registers) : Nat := (r.b <<< 8) ||| r.c

def Registers.de (r : Registers) : Nat := (r.d <<< 8) ||| r.e

def Registers.write_bc (r : Registers) (value : Nat) : Registers :=
  {r with b := (value &&& 0xff00) >>> 8, c := value % 256}

def Registers.write_de (r : Registers) (value : Nat) : Registers :=
  {r with d := (value &&& 0xff00) >>> 8, e := value % 256}

def Registers.write_hl (r : Registers) (value : Nat) : Registers :=
  {r with h := (value &&& 0xff00) >>> 8, l := value % 256}

/-- `Registers::write_af`: the flags byte keeps only its most significant
nibble. -/
def Registers.write_af (r : Registers) (value : Nat) : Registers :=
  {r with a := (value &&& 0xff00) >>> 8, flags := value % 256 &&& 0xf0}

/-- `Registers::set_flag` (`!flag` on u8 is `255 ^^^ flag`). -/
def Registers.set_flag (r : Registers) (flag : Nat) (value : Bool) : Registers :=
  if value then {r with flags := r.flags ||| flag}
  else {r with flags := r.flags &&& (255 ^^^ flag)}

def ZERO_FLAG : Nat := 1 <<< 7
def SUBTRACT_FLAG : Nat := 1 <<< 6
def HALF_CARRY_FLAG : Nat := 1 <<< 5
def CARRY_FLAG : Nat := 1 <<< 4

/-- The `Cpu` struct (the `memory` handle is passed to `decode`
explicitly; `current_op` is a debug string with no semantic content). -/
structure Cpu where
  regs : Registers
  sp : Nat
  pc : Nat
  interrupts_enabled : Bool

/-- `Cpu::new`: zeroed registers, sp = 0, pc = 0, interrupts disabled. -/
def Cpu.new : Cpu := ⟨Registers.default, 0, 0, false⟩

/-- `Location::load8`. -/
def Location.load8 (l : Location) (regs : Registers) (m : Store) : Nat :=
  match l with
  | .Register .A => regs.a
  | .Register .B => regs.b
  | .Register .C => regs.c
  | .Register .D => regs.d
  | .Register .E => regs.e
  | .Register .H => regs.h
  | .Register .L => regs.l
  | .Address address => m.load address

/-- `Location::store8`. -/
def Location.store8 (l : Location) (regs : Registers) (m : Store) (value : Nat) :
    Registers × Store :=
  match l with
  | .Register .A => ({regs with a := value}, m)
  | .Register .B => ({regs with b := value}, m)
  | .Register .C => ({regs with c := value}, m)
  | .Register .D => ({regs with d := value}, m)
  | .Register .E => ({regs with e := value}, m)
  | .Register .H => ({regs with h := value}, m)
  | .Register .L => ({regs with l := value}, m)
  | .Address address => (regs, m.write address value)

/-- `Cpu::index`: the 3-bit register field; 6 is memory at HL.  The
callers only pass values below 8, so the panicking default arm is
unreachable (mapped to A). -/
def Cpu.index (c : Cpu) (i : Nat) : Location :=
  if i = 0 then .Register .B
  else if i = 1 then .Register .C
  else if i = 2 then .Register .D
  else if i = 3 then .Register .E
  else if i = 4 then .Register .H
  else if i = 5 then .Register .L
  else if i = 6 then .Address c.regs.hl
  else .Register .A

/-- The jump target of the relative jumps (JR family):
`saturating_add` / `saturating_sub` of `immediate as i8` (`abs()` of -128
in release mode is -128, giving 0xff80 as u16). -/
def jr_target (pc imm : Nat) : Nat :=
  if imm < 128 then min (pc + imm) 65535
  else pc - (if imm = 128 then 0xff80 else 256 - imm)

/-!
The body of the big opcode `match` in `Cpu::decode` is embedded arm by
arm: one definition per non-trivial match arm (named after the
mnemonic), in source order, plus the dispatcher `Cpu.exec_op` that
mirrors the `match opcode` itself.  Each arm yields the machine state,
the cycle count, and whether the arm performed an early `return cycles`
(skipping the trailing `self.pc += 1`).  Arms that can hit
`unimplemented!()` or the panicking catch-all yield an `Option`.
-/

/-- LD r16,n (0x01 | 0x11 | 0x21 | 0x31). -/
def op_ld_r16_nn (op : Nat) (c : Cpu) (m : Store) : Cpu × Store × Nat × Bool :=
  let pc1 := (c.pc + 1) % 65536
  let low := m.load pc1
  let pc2 := (pc1 + 1) % 65536
  let high := m.load pc2
  let immediate := (high <<< 8) ||| low
  let c1 := {c with pc := pc2}
  let c2 :=
    if (op &&& 0xf0) >>> 4 = 0 then {c1 with regs := c1.regs.write_bc immediate}
    else if (op &&& 0xf0) >>> 4 = 1 then {c1 with regs := c1.regs.write_de immediate}
    else if (op &&& 0xf0) >>> 4 = 2 then {c1 with regs := c1.regs.write_hl immediate}
    else {c1 with sp := immediate}
  (c2, m, 12, false)

/-- DEC r8 (0x05 | 0x15 | 0x25 | 0x35 | 0x0d | 0x1d | 0x2d | 0x3d). -/
def op_dec_r8 (op : Nat) (c : Cpu) (m : Store) : Cpu × Store × Nat × Bool :=
  let location := c.index ((op &&& 0b111000) >>> 3)
  let value := (location.load8 c.regs m + 255) % 256
  let rm := location.store8 c.regs m value
  let r1 := ((rm.1.set_flag ZERO_FLAG (value = 0)).set_flag SUBTRACT_FLAG
    true).set_flag HALF_CARRY_FLAG (value &&& 0x0f = 0x0f)
  ({c with regs := r1}, rm.2, if op = 0x35 then 12 else 4, false)

/-- RLCA (0x07); `a <<= 1` on u8 drops the top bit. -/
def op_rlca (c : Cpu) (m : Store) : Cpu × Store × Nat × Bool :=
  let r1 := c.regs.set_flag CARRY_FLAG (c.regs.a &&& 0b10000000 ≠ 0)
  let r2 := {r1 with a := (r1.a <<< 1) &&& 255}
  let r3 := ((r2.set_flag ZERO_FLAG false).set_flag SUBTRACT_FLAG
    false).set_flag HALF_CARRY_FLAG false
  ({c with regs := r3}, m, 4, false)

/-- LD (a16),SP (0x08). -/
def op_ld_a16_sp (c : Cpu) (m : Store) : Cpu × Store × Nat × Bool :=
  let pc1 := (c.pc + 1) % 65536
  let low := m.load pc1
  let pc2 := (pc1 + 1) % 65536
  let high := m.load pc2
  let addr := (high <<< 8) ||| low
  let m1 := m.write addr (c.sp &&& 0xff)
  let m2 := m1.write (addr + 1) ((c.sp &&& 0xff00) >>> 8)
  ({c with pc := pc2}, m2, 20, false)

/-- RLA (0x17). -/
def op_rla (c : Cpu) (m : Store) : Cpu × Store × Nat × Bool :=
  let carry := (c.regs.flags &&& CARRY_FLAG) >>> 4
  let r1 := c.regs.set_flag CARRY_FLAG (c.regs.a &&& 0b10000000 ≠ 0)
  let r2 := {r1 with a := ((r1.a <<< 1) &&& 255) ||| carry}
  let r3 := ((r2.set_flag ZERO_FLAG false).set_flag SUBTRACT_FLAG
    false).set_flag HALF_CARRY_FLAG false
  ({c with regs := r3}, m, 4, false)

/-- RRA (0x1f). -/
def op_rra (c : Cpu) (m : Store) : Cpu × Store × Nat × Bool :=
  let carry := (c.regs.flags &&& CARRY_FLAG) >>> 4
  let r1 := c.regs.set_flag CARRY_FLAG (c.regs.a &&& 0x1 ≠ 0)
  let r2 := {r1 with a := (r1.a >>> 1) ||| (carry <<< 7)}
  let r3 := ((r2.set_flag ZERO_FLAG false).set_flag SUBTRACT_FLAG
    false).set_flag HALF_CARRY_FLAG false
  ({c with regs := r3}, m, 4, false)

/-- ADD HL,n (0x09 | 0x19 | 0x29 | 0x39). -/
def op_add_hl (op : Nat) (c : Cpu) (m : Store) : Cpu × Store × Nat × Bool :=
  let operand :=
    if op = 0x09 then c.regs.bc
    else if op = 0x19 then c.regs.de
    else if op = 0x29 then c.regs.hl
    else c.sp
  let r1 := c.regs.set_flag HALF_CARRY_FLAG
    ((c.regs.hl &&& 0xfff) + (operand &&& 0xfff) > 0xfff)
  let result := (r1.hl + operand) % 65536
  let carry := r1.hl + operand > 0xffff
  let r2 := r1.write_hl result
  let r3 := (r2.set_flag SUBTRACT_FLAG false).set_flag CARRY_FLAG carry
  ({c with regs := r3}, m, 8, false)

/-- LD A,(r16) (0x0a | 0x1a | 0x2a | 0x3a), post-inc/dec of HL for 2a/3a. -/
def op_ld_a_r16 (op : Nat) (c : Cpu) (m : Store) : Cpu × Store × Nat × Bool :=
  let rv : Registers × Nat :=
    if (op &&& 0xf0) >>> 4 = 0 then (c.regs, m.load c.regs.bc)
    else if (op &&& 0xf0) >>> 4 = 1 then (c.regs, m.load c.regs.de)
    else if (op &&& 0xf0) >>> 4 = 2 then
      (c.regs.write_hl ((c.regs.hl + 1) % 65536), m.load c.regs.hl)
    else
      (c.regs.write_hl ((c.regs.hl + 65535) % 65536), m.load c.regs.hl)
  ({c with regs := {rv.1 with a := rv.2}}, m, 8, false)

/-- LD r8,n (0x06 | 0x16 | 0x26 | 0x36 | 0x0e | 0x1e | 0x2e | 0x3e). -/
def op_ld_r8_n (op : Nat) (c : Cpu) (m : Store) : Cpu × Store × Nat × Bool :=
  let pc1 := (c.pc + 1) % 65536
  let immediate := m.load pc1
  let location := c.index ((op &&& 0b111000) >>> 3)
  let rm := location.store8 c.regs m immediate
  ({c with pc := pc1, regs := rm.1}, rm.2, if op = 0x36 then 12 else 8, false)

/-- 16 bit INC (0x03 | 0x13 | 0x23 | 0x33). -/
def op_inc_r16 (op : Nat) (c : Cpu) (m : Store) : Cpu × Store × Nat × Bool :=
  let c1 :=
    if (op &&& 0xf0) >>> 4 = 0 then {c with regs := c.regs.write_bc ((c.regs.bc + 1) % 65536)}
    else if (op &&& 0xf0) >>> 4 = 1 then {c with regs := c.regs.write_de ((c.regs.de + 1) % 65536)}
    else if (op &&& 0xf0) >>> 4 = 2 then {c with regs := c.regs.write_hl ((c.regs.hl + 1) % 65536)}
    else {c with sp := (c.sp + 1) % 65536}
  (c1, m, 8, false)

/-- JR n (0x18, early return). -/
def op_jr (c : Cpu) (m : Store) : Cpu × Store × Nat × Bool :=
  let pc1 := (c.pc + 1) % 65536
  let immediate := m.load pc1
  let pc2 := (pc1 + 1) % 65536
  ({c with pc := jr_target pc2 immediate}, m, 12, true)

/-- JR Z,n (0x28; early return only when taken). -/
def op_jr_z (c : Cpu) (m : Store) : Cpu × Store × Nat × Bool :=
  let pc1 := (c.pc + 1) % 65536
  let immediate := m.load pc1
  if c.regs.flags &&& ZERO_FLAG ≠ 0 then
    let pc2 := (pc1 + 1) % 65536
    ({c with pc := jr_target pc2 immediate}, m, 12, true)
  else ({c with pc := pc1}, m, 8, false)

/-- JR C,n (0x38; early return on both paths). -/
def op_jr_c (c : Cpu) (m : Store) : Cpu × Store × Nat × Bool :=
  let pc1 := (c.pc + 1) % 65536
  let immediate := m.load pc1
  let pc2 := (pc1 + 1) % 65536
  if c.regs.flags &&& CARRY_FLAG ≠ 0 then
    ({c with pc := jr_target pc2 immediate}, m, 12, true)
  else ({c with pc := pc2}, m, 8, true)

/-- 16 bit DEC (0x0b | 0x1b | 0x2b | 0x3b); plain `- 1` in the source,
wrapping in release mode. -/
def op_dec_r16 (op : Nat) (c : Cpu) (m : Store) : Cpu × Store × Nat × Bool :=
  let c1 :=
    if (op &&& 0xf0) >>> 4 = 0 then {c with regs := c.regs.write_bc ((c.regs.bc + 65535) % 65536)}
    else if (op &&& 0xf0) >>> 4 = 1 then {c with regs := c.regs.write_de ((c.regs.de + 65535) % 65536)}
    else if (op &&& 0xf0) >>> 4 = 2 then {c with regs := c.regs.write_hl ((c.regs.hl + 65535) % 65536)}
    else {c with sp := (c.sp + 65535) % 65536}
  (c1, m, 8, false)

/-- INC r8 (0x04 | 0x14 | 0x24 | 0x34 | 0x0c | 0x1c | 0x2c | 0x3c). -/
def op_inc_r8 (op : Nat) (c : Cpu) (m : Store) : Cpu × Store × Nat × Bool :=
  let location := c.index ((op &&& 0b111000) >>> 3)
  let value := (location.load8 c.regs m + 1) % 256
  let rm := location.store8 c.regs m value
  let r1 := ((rm.1.set_flag ZERO_FLAG (value = 0)).set_flag SUBTRACT_FLAG
    false).set_flag HALF_CARRY_FLAG (value &&& 0xf = 0)
  ({c with regs := r1}, rm.2, if op = 0x34 then 12 else 4, false)

/-- LD r1,r2 (0x40..=0x7f except 0x76). -/
def op_ld_r_r (op : Nat) (c : Cpu) (m : Store) : Cpu × Store × Nat × Bool :=
  let src_location := c.index (op &&& 0b111)
  let src_value := src_location.load8 c.regs m
  let dst_location := c.index ((op &&& 0b111000) >>> 3)
  let rm := dst_location.store8 c.regs m src_value
  let cy : Nat :=
    match src_location, dst_location with
    | .Address _, .Address _ => 8
    | _, _ => 4
  ({c with regs := rm.1}, rm.2, cy, false)

/-- The ALU block (0x80..=0xbf and the immediate forms 0xc6 | 0xd6 | 0xe6 |
0xf6 | 0xce | 0xde | 0xee | 0xfe): ADD/ADC/SUB/SBC/AND/XOR/OR/CP on A and
n = r / (HL) / immediate.  The SBC sub-arm is `unimplemented!()`. -/
def alu_operand (op : Nat) (c : Cpu) (m : Store) : Cpu × Nat × Nat :=
  if 0xbf < op then
    let pc1 := (c.pc + 1) % 65536
    ({c with pc := pc1}, m.load pc1, 8)
  else
    let location := c.index (op &&& 0b111)
    (c, location.load8 c.regs m,
      match location with
      | .Address _ => 8
      | _ => 4)

/-- The inner `match (opcode & 0b0011_1000) >> 3` of the ALU block, given
the already-fetched operand `n` and cycle count. -/
def alu_exec (subop : Nat) (c0 : Cpu) (n cycles : Nat) (m : Store) :
    Option (Cpu × Store × Nat × Bool) :=
  if subop = 0 then
    -- ADD A,n
    let r1 := c0.regs.set_flag HALF_CARRY_FLAG ((c0.regs.a &&& 0xf) + (n &&& 0xf) > 0xf)
    let result := (r1.a + n) % 256
    let carry := r1.a + n > 0xff
    let r2 := {r1 with a := result}
    let r3 := ((r2.set_flag ZERO_FLAG (r2.a = 0)).set_flag SUBTRACT_FLAG
      false).set_flag CARRY_FLAG carry
    some ({c0 with regs := r3}, m, cycles, false)
  else if subop = 1 then
    -- ADC A,n: the half-carry is computed from the ALREADY UPDATED A
    let carry := if c0.regs.flags &&& CARRY_FLAG = 0 then 0 else 1
    let result := c0.regs.a + carry + n
    let r1 := {c0.regs with a := result % 256}
    let r2 := (r1.set_flag ZERO_FLAG (r1.a = 0)).set_flag SUBTRACT_FLAG false
    let r3 := r2.set_flag CARRY_FLAG (result > 0xff)
    let r4 := r3.set_flag HALF_CARRY_FLAG ((r3.a &&& 0xf) + (n &&& 0xf) + carry > 0xf)
    some ({c0 with regs := r4}, m, cycles, false)
  else if subop = 2 then
    -- SUB n
    let r1 := c0.regs.set_flag HALF_CARRY_FLAG ((c0.regs.a &&& 0xf) < (n &&& 0xf))
    let carry := r1.a < n
    let result := (r1.a + 256 - n) % 256
    let r2 := {r1 with a := result}
    let r3 := ((r2.set_flag CARRY_FLAG carry).set_flag ZERO_FLAG
      (r2.a = 0)).set_flag SUBTRACT_FLAG true
    some ({c0 with regs := r3}, m, cycles, false)
  else if subop = 3 then
    none   -- SBC A,n: unimplemented!() in the source
  else if subop = 4 then
    -- AND n
    let r1 := {c0.regs with a := c0.regs.a &&& n}
    let r2 := (((r1.set_flag ZERO_FLAG (r1.a = 0)).set_flag SUBTRACT_FLAG
      false).set_flag HALF_CARRY_FLAG true).set_flag CARRY_FLAG false
    some ({c0 with regs := r2}, m, cycles, false)
  else if subop = 5 then
    -- XOR n (`flags = 0`, then Z)
    let r1 := {c0.regs with a := c0.regs.a ^^^ n}
    let r2 := {r1 with flags := 0}
    let r3 := r2.set_flag ZERO_FLAG (r2.a = 0)
    some ({c0 with regs := r3}, m, cycles, false)
  else if subop = 6 then
    -- OR n (`flags = 0`, then Z)
    let r1 := {c0.regs with a := c0.regs.a ||| n}
    let r2 := {r1 with flags := 0}
    let r3 := r2.set_flag ZERO_FLAG (r2.a = 0)
    some ({c0 with regs := r3}, m, cycles, false)
  else
    -- CP n
    let r1 := ((c0.regs.set_flag ZERO_FLAG (c0.regs.a = n)).set_flag SUBTRACT_FLAG
      true).set_flag CARRY_FLAG (n > c0.regs.a)
    let r2 := r1.set_flag HALF_CARRY_FLAG ((r1.a &&& 0xf) < (n &&& 0xf))
    some ({c0 with regs := r2}, m, cycles, false)

def op_alu (op : Nat) (c : Cpu) (m : Store) : Option (Cpu × Store × Nat × Bool) :=
  let cnk := alu_operand op c m
  alu_exec ((op &&& 0b111000) >>> 3) cnk.1 cnk.2.1 cnk.2.2 m

/-- RET NZ (0xc0). -/
def op_ret_nz (c : Cpu) (m : Store) : Cpu × Store × Nat × Bool :=
  if c.regs.flags &&& ZERO_FLAG = 0 then
    let high := m.load c.sp
    let sp1 := (c.sp + 1) % 65536
    let low := m.load sp1
    let sp2 := (sp1 + 1) % 65536
    ({c with sp := sp2, pc := (high <<< 8) ||| low}, m, 20, true)
  else (c, m, 8, false)

/-- RET Z (0xc8). -/
def op_ret_z (c : Cpu) (m : Store) : Cpu × Store × Nat × Bool :=
  if c.regs.flags &&& ZERO_FLAG ≠ 0 then
    let high := m.load c.sp
    let sp1 := (c.sp + 1) % 65536
    let low := m.load sp1
    let sp2 := (sp1 + 1) % 65536
    ({c with sp := sp2, pc := (high <<< 8) ||| low}, m, 20, true)
  else (c, m, 8, false)

/-- POP r16 (0xc1 | 0xd1 | 0xe1 | 0xf1): the byte at SP is the HIGH half
of the popped value; POP AF goes through `write_af`. -/
def op_pop_r16 (op : Nat) (c : Cpu) (m : Store) : Cpu × Store × Nat × Bool :=
  let high := m.load c.sp
  let sp1 := (c.sp + 1) % 65536
  let low := m.load sp1
  let sp2 := (sp1 + 1) % 65536
  let value := (high <<< 8) ||| low
  let r1 :=
    if (op &&& 0xf0) >>> 4 = 0xc then c.regs.write_bc value
    else if (op &&& 0xf0) >>> 4 = 0xd then c.regs.write_de value
    else if (op &&& 0xf0) >>> 4 = 0xe then c.regs.write_hl value
    else c.regs.write_af value
  ({c with sp := sp2, regs := r1}, m, 12, false)

/-- RET (0xc9, early return). -/
def op_ret (c : Cpu) (m : Store) : Cpu × Store × Nat × Bool :=
  let high := m.load c.sp
  let sp1 := (c.sp + 1) % 65536
  let low := m.load sp1
  let sp2 := (sp1 + 1) % 65536
  ({c with sp := sp2, pc := (high <<< 8) ||| low}, m, 16, true)

/-- PUSH r16 (0xc5 | 0xd5 | 0xe5 | 0xf5): low half first at SP-1, high
half at SP-2. -/
def op_push_r16 (op : Nat) (c : Cpu) (m : Store) : Cpu × Store × Nat × Bool :=
  let sp1 := (c.sp + 65535) % 65536
  let sp2 := (sp1 + 65535) % 65536
  let m2 :=
    if (op &&& 0xf0) >>> 4 = 0xc then (m.write sp1 c.regs.c).write sp2 c.regs.b
    else if (op &&& 0xf0) >>> 4 = 0xd then (m.write sp1 c.regs.e).write sp2 c.regs.d
    else if (op &&& 0xf0) >>> 4 = 0xe then (m.write sp1 c.regs.l).write sp2 c.regs.h
    else (m.write sp1 c.regs.flags).write sp2 c.regs.a
  ({c with sp := sp2}, m2, 16, false)

/-- CALL cc,nn (0xc4 | 0xcc | 0xcd | 0xd4 | 0xdc): pushes the next
instruction address with its LOW byte at SP-1 and its HIGH byte at SP-2. -/
def op_call (op : Nat) (c : Cpu) (m : Store) : Cpu × Store × Nat × Bool :=
  let pc1 := (c.pc + 1) % 65536
  let low := m.load pc1
  let pc2 := (pc1 + 1) % 65536
  let high := m.load pc2
  let condition : Bool :=
    if op = 0xcd then true
    else if op = 0xc4 then decide (c.regs.flags &&& ZERO_FLAG = 0)
    else if op = 0xcc then decide (c.regs.flags &&& ZERO_FLAG ≠ 0)
    else if op = 0xd4 then decide (c.regs.flags &&& CARRY_FLAG = 0)
    else decide (c.regs.flags &&& CARRY_FLAG ≠ 0)
  if condition then
    let next_inst_addr := (pc2 + 1) % 65536
    let sp1 := (c.sp + 65535) % 65536
    let m1 := m.write sp1 (next_inst_addr &&& 255)
    let sp2 := (sp1 + 65535) % 65536
    let m2 := m1.write sp2 (next_inst_addr >>> 8)
    ({c with sp := sp2, pc := (high <<< 8) ||| low}, m2, 24, true)
  else ({c with pc := pc2}, m, 12, false)

/-- The CB-prefixed page (0xcb): rotates/shifts/SWAP, BIT, RES, SET.
RRC and SRA are `unimplemented!()`; `cycles = 4` for every CB opcode
(source FIXME). -/
def op_cb (c : Cpu) (m : Store) : Option (Cpu × Store × Nat × Bool) :=
  let pc1 := (c.pc + 1) % 65536
  let cb := m.load pc1
  let c1 := {c with pc := pc1}
  let reg_index := cb &&& 0b111
  let bit_pos := (cb &&& 0b111000) >>> 3
  if (cb &&& 0b11000000) >>> 6 = 0 then
    if bit_pos = 0 then
      -- RLC r8 (Z is only ever SET, never cleared, by this arm)
      let location := c1.index reg_index
      let v := location.load8 c1.regs m
      let value := ((v <<< 1) &&& 255) ||| (v >>> 7)
      let rm := location.store8 c1.regs m value
      let r1 := rm.1.set_flag CARRY_FLAG (value &&& 0x1 ≠ 0)
      let r2 := if value = 0 then {r1 with flags := r1.flags ||| ZERO_FLAG} else r1
      let r3 := {r2 with flags := r2.flags &&& (255 ^^^ SUBTRACT_FLAG)}
      let r4 := {r3 with flags := r3.flags &&& (255 ^^^ HALF_CARRY_FLAG)}
      some ({c1 with regs := r4}, rm.2, 4, false)
    else if bit_pos = 1 then
      none   -- RRC: unimplemented!()
    else if bit_pos = 2 then
      -- RL r8
      let carry := (c1.regs.flags &&& CARRY_FLAG) >>> 4
      let location := c1.index reg_index
      let initial_value := location.load8 c1.regs m
      let value := ((initial_value <<< 1) &&& 255) ||| carry
      let rm := location.store8 c1.regs m value
      let r1 := (((rm.1.set_flag CARRY_FLAG (initial_value &&& 0b10000000 ≠ 0)).set_flag
        ZERO_FLAG (value = 0)).set_flag SUBTRACT_FLAG false).set_flag HALF_CARRY_FLAG false
      some ({c1 with regs := r1}, rm.2, 4, false)
    else if bit_pos = 3 then
      -- RR r8
      let carry := (c1.regs.flags &&& CARRY_FLAG) >>> 4
      let location := c1.index reg_index
      let initial_value := location.load8 c1.regs m
      let value := (carry <<< 7) ||| (initial_value >>> 1)
      let rm := location.store8 c1.regs m value
      let r1 := (((rm.1.set_flag CARRY_FLAG (initial_value &&& 0x1 ≠ 0)).set_flag
        ZERO_FLAG (value = 0)).set_flag HALF_CARRY_FLAG false).set_flag SUBTRACT_FLAG false
      some ({c1 with regs := r1}, rm.2, 4, false)
    else if bit_pos = 4 then
      -- SLA r8
      let location := c1.index reg_index
      let initial_value := location.load8 c1.regs m
      let value := (initial_value <<< 1) &&& 255
      let rm := location.store8 c1.regs m value
      let r1 := (((rm.1.set_flag CARRY_FLAG (initial_value &&& 0b10000000 ≠ 0)).set_flag
        ZERO_FLAG (value = 0)).set_flag HALF_CARRY_FLAG false).set_flag SUBTRACT_FLAG false
      some ({c1 with regs := r1}, rm.2, 4, false)
    else if bit_pos = 5 then
      none   -- SRA: unimplemented!()
    else if bit_pos = 6 then
      -- SWAP r8 as written in the source: `value&0xf << 4 | value&0xf0 >> 4`
      -- (shift binds tighter than `&`, so this is the identity on value)
      let location := c1.index reg_index
      let value := location.load8 c1.regs m
      let swapped := (value &&& (0xf <<< 4)) ||| (value &&& (0xf0 >>> 4))
      let rm := location.store8 c1.regs m swapped
      let r1 := (((rm.1.set_flag ZERO_FLAG (swapped = 0)).set_flag CARRY_FLAG
        false).set_flag HALF_CARRY_FLAG false).set_flag SUBTRACT_FLAG false
      some ({c1 with regs := r1}, rm.2, 4, false)
    else
      -- SRL r8
      let location := c1.index reg_index
      let initial_value := location.load8 c1.regs m
      let value := initial_value >>> 1
      let rm := location.store8 c1.regs m value
      let r1 := (((rm.1.set_flag CARRY_FLAG (initial_value &&& 0x1 ≠ 0)).set_flag
        ZERO_FLAG (value = 0)).set_flag HALF_CARRY_FLAG false).set_flag SUBTRACT_FLAG false
      some ({c1 with regs := r1}, rm.2, 4, false)
  else if (cb &&& 0b11000000) >>> 6 = 1 then
    -- BIT n,r8
    let location := c1.index reg_index
    let value := location.load8 c1.regs m
    let r1 := ((c1.regs.set_flag ZERO_FLAG (value &&& (1 <<< bit_pos) = 0)).set_flag
      SUBTRACT_FLAG false).set_flag HALF_CARRY_FLAG true
    some ({c1 with regs := r1}, m, 4, false)
  else if (cb &&& 0b11000000) >>> 6 = 2 then
    -- RES n,r8
    let location := c1.index reg_index
    let value := location.load8 c1.regs m
    let rm := location.store8 c1.regs m (value &&& (255 ^^^ (1 <<< bit_pos)))
    some ({c1 with regs := rm.1}, rm.2, 4, false)
  else
    -- SET n,r8
    let location := c1.index reg_index
    let value := location.load8 c1.regs m
    let rm := location.store8 c1.regs m (value ||| (1 <<< bit_pos))
    some ({c1 with regs := rm.1}, rm.2, 4, false)

/-- JR NZ,n (0x20). -/
def op_jr_nz (c : Cpu) (m : Store) : Cpu × Store × Nat × Bool :=
  let pc1 := (c.pc + 1) % 65536
  let immediate := m.load pc1
  if c.regs.flags &&& ZERO_FLAG = 0 then
    let pc2 := (pc1 + 1) % 65536
    ({c with pc := jr_target pc2 immediate}, m, 12, true)
  else ({c with pc := pc1}, m, 8, false)

/-- CPL (0x2f). -/
def op_cpl (c : Cpu) (m : Store) : Cpu × Store × Nat × Bool :=
  let r1 := ({c.regs with a := c.regs.a ^^^ 255}.set_flag SUBTRACT_FLAG
    true).set_flag HALF_CARRY_FLAG true
  ({c with regs := r1}, m, 4, false)

/-- JR NC,n (0x30; early return on both paths). -/
def op_jr_nc (c : Cpu) (m : Store) : Cpu × Store × Nat × Bool :=
  let pc1 := (c.pc + 1) % 65536
  let immediate := m.load pc1
  let pc2 := (pc1 + 1) % 65536
  if c.regs.flags &&& CARRY_FLAG = 0 then
    ({c with pc := jr_target pc2 immediate}, m, 12, true)
  else ({c with pc := pc2}, m, 8, true)

/-- JP nn (0xc3, early return). -/
def op_jp (c : Cpu) (m : Store) : Cpu × Store × Nat × Bool :=
  let pc1 := (c.pc + 1) % 65536
  let low := m.load pc1
  let pc2 := (pc1 + 1) % 65536
  let high := m.load pc2
  ({c with pc := (high <<< 8) ||| low}, m, 16, true)

/-- JP cc,nn (0xc2 | 0xca | 0xd2 | 0xda), 12 cycles either way. -/
def op_jp_cc (op : Nat) (c : Cpu) (m : Store) : Cpu × Store × Nat × Bool :=
  let pc1 := (c.pc + 1) % 65536
  let low := m.load pc1
  let pc2 := (pc1 + 1) % 65536
  let high := m.load pc2
  let condition : Bool :=
    if op = 0xc2 then decide (c.regs.flags &&& ZERO_FLAG = 0)
    else if op = 0xca then decide (c.regs.flags &&& ZERO_FLAG ≠ 0)
    else if op = 0xd2 then decide (c.regs.flags &&& CARRY_FLAG = 0)
    else decide (c.regs.flags &&& CARRY_FLAG ≠ 0)
  if condition then ({c with pc := (high <<< 8) ||| low}, m, 12, true)
  else ({c with pc := pc2}, m, 12, false)

/-- LDH (n),A (0xe0). -/
def op_ldh_n_a (c : Cpu) (m : Store) : Cpu × Store × Nat × Bool :=
  let pc1 := (c.pc + 1) % 65536
  let immediate := m.load pc1
  ({c with pc := pc1}, m.write (0xff00 + immediate) c.regs.a, 12, false)

/-- ADD SP,n (0xe8; signed, `overflowing_add_signed` wraps). -/
def op_add_sp (c : Cpu) (m : Store) : Cpu × Store × Nat × Bool :=
  let pc1 := (c.pc + 1) % 65536
  let n := m.load pc1
  let r1 := c.regs.set_flag HALF_CARRY_FLAG ((c.sp &&& 0xf) + (n &&& 0xf) > 0xf)
  let r2 := r1.set_flag CARRY_FLAG ((c.sp &&& 0xff) + n > 0xff)
  let sp1 := (c.sp + (if n < 128 then n else n + 65280)) % 65536
  let r3 := (r2.set_flag ZERO_FLAG false).set_flag SUBTRACT_FLAG false
  ({c with pc := pc1, sp := sp1, regs := r3}, m, 16, false)

/-- LDH A,(n) (0xf0). -/
def op_ldh_a_n (c : Cpu) (m : Store) : Cpu × Store × Nat × Bool :=
  let pc1 := (c.pc + 1) % 65536
  let immediate := m.load pc1
  ({c with pc := pc1, regs := {c.regs with a := m.load (0xff00 + immediate)}}, m, 12, false)

/-- LD (a16),A (0xea). -/
def op_ld_a16_a (c : Cpu) (m : Store) : Cpu × Store × Nat × Bool :=
  let pc1 := (c.pc + 1) % 65536
  let low := m.load pc1
  let pc2 := (pc1 + 1) % 65536
  let high := m.load pc2
  ({c with pc := pc2}, m.write ((high <<< 8) ||| low) c.regs.a, 16, false)

/-- RST n (0xc7 | 0xcf | 0xd7 | 0xdf | 0xe7 | 0xef | 0xf7 | 0xff): pushes
pc+1 with its high byte at SP-1 and its low byte at SP-2. -/
def op_rst (op : Nat) (c : Cpu) (m : Store) : Cpu × Store × Nat × Bool :=
  let pc1 := (c.pc + 1) % 65536
  let sp1 := (c.sp + 65535) % 65536
  let m1 := m.write sp1 (pc1 >>> 8)
  let sp2 := (sp1 + 65535) % 65536
  let m2 := m1.write sp2 (pc1 &&& 0xff)
  ({c with sp := sp2, pc := op - 0xc7}, m2, 16, true)

/-- RETI (0xd9). -/
def op_reti (c : Cpu) (m : Store) : Cpu × Store × Nat × Bool :=
  let high := m.load c.sp
  let sp1 := (c.sp + 1) % 65536
  let low := m.load sp1
  let sp2 := (sp1 + 1) % 65536
  ({c with sp := sp2, pc := (high <<< 8) ||| low, interrupts_enabled := true}, m, 16, true)

/-- LD A,(a16) (0xfa). -/
def op_ld_a_a16 (c : Cpu) (m : Store) : Cpu × Store × Nat × Bool :=
  let pc1 := (c.pc + 1) % 65536
  let low := m.load pc1
  let pc2 := (pc1 + 1) % 65536
  let high := m.load pc2
  ({c with pc := pc2, regs := {c.regs with a := m.load ((high <<< 8) ||| low)}}, m, 16, false)

/-- LD HL,SP+n (0xf8). -/
def op_ld_hl_sp_n (c : Cpu) (m : Store) : Cpu × Store × Nat × Bool :=
  let pc1 := (c.pc + 1) % 65536
  let n := m.load pc1
  let r1 := c.regs.set_flag HALF_CARRY_FLAG ((c.sp &&& 0xf) + (n &&& 0xf) > 0xf)
  let r2 := r1.set_flag CARRY_FLAG ((c.sp &&& 0xff) + n > 0xff)
  let result := (c.sp + (if n < 128 then n else n + 65280)) % 65536
  let r3 := ((r2.write_hl result).set_flag ZERO_FLAG false).set_flag SUBTRACT_FLAG false
  ({c with pc := pc1, regs := r3}, m, 12, false)

/-- The dispatcher: the `match opcode` of `Cpu::decode`, arm for arm and
in source order (the patterns are disjoint, so the order of the tests is
immaterial).  The default arm is `panic!()`. -/
def Cpu.exec_op (c : Cpu) (m : Store) (op : Nat) : Option (Cpu × Store × Nat × Bool) :=
  if op = 0x00 then
    -- NOP: the arm does nothing; `cycles` keeps its initial value 1.
    some (c, m, 1, false)
  else if op = 0x01 ∨ op = 0x11 ∨ op = 0x21 ∨ op = 0x31 then some (op_ld_r16_nn op c m)
  else if op = 0x05 ∨ op = 0x15 ∨ op = 0x25 ∨ op = 0x35 ∨
      op = 0x0d ∨ op = 0x1d ∨ op = 0x2d ∨ op = 0x3d then some (op_dec_r8 op c m)
  else if op = 0x07 then some (op_rlca c m)
  else if op = 0x08 then some (op_ld_a16_sp c m)
  else if op = 0x17 then some (op_rla c m)
  else if op = 0x1f then some (op_rra c m)
  else if op = 0x09 ∨ op = 0x19 ∨ op = 0x29 ∨ op = 0x39 then some (op_add_hl op c m)
  else if op = 0x0a ∨ op = 0x1a ∨ op = 0x2a ∨ op = 0x3a then some (op_ld_a_r16 op c m)
  else if op = 0x06 ∨ op = 0x16 ∨ op = 0x26 ∨ op = 0x36 ∨
      op = 0x0e ∨ op = 0x1e ∨ op = 0x2e ∨ op = 0x3e then some (op_ld_r8_n op c m)
  else if op = 0x03 ∨ op = 0x13 ∨ op = 0x23 ∨ op = 0x33 then some (op_inc_r16 op c m)
  else if op = 0x18 then some (op_jr c m)
  else if op = 0x28 then some (op_jr_z c m)
  else if op = 0x38 then some (op_jr_c c m)
  else if op = 0x0b ∨ op = 0x1b ∨ op = 0x2b ∨ op = 0x3b then some (op_dec_r16 op c m)
  else if op = 0x04 ∨ op = 0x14 ∨ op = 0x24 ∨ op = 0x34 ∨
      op = 0x0c ∨ op = 0x1c ∨ op = 0x2c ∨ op = 0x3c then some (op_inc_r8 op c m)
  else if op = 0x02 then some (c, m.write c.regs.bc c.regs.a, 8, false)     -- LD (BC),A
  else if op = 0x12 then some (c, m.write c.regs.de c.regs.a, 8, false)     -- LD (DE),A
  else if op = 0x22 then
    -- LD (HL+),A
    some ({c with regs := c.regs.write_hl ((c.regs.hl + 1) % 65536)},
      m.write c.regs.hl c.regs.a, 8, false)
  else if op = 0x32 then
    -- LD (HL-),A
    some ({c with regs := c.regs.write_hl ((c.regs.hl + 65535) % 65536)},
      m.write c.regs.hl c.regs.a, 8, false)
  else if op = 0x76 then some (c, m, 16, false)    -- HALT (no waiting state)
  else if 0x40 ≤ op ∧ op ≤ 0x7f then some (op_ld_r_r op c m)
  else if (0x80 ≤ op ∧ op ≤ 0xbf) ∨ op = 0xc6 ∨ op = 0xd6 ∨ op = 0xe6 ∨ op = 0xf6 ∨
      op = 0xce ∨ op = 0xde ∨ op = 0xee ∨ op = 0xfe then op_alu op c m
  else if op = 0xc0 then some (op_ret_nz c m)
  else if op = 0xc8 then some (op_ret_z c m)
  else if op = 0xc1 ∨ op = 0xd1 ∨ op = 0xe1 ∨ op = 0xf1 then some (op_pop_r16 op c m)
  else if op = 0xc9 then some (op_ret c m)
  else if op = 0xc5 ∨ op = 0xd5 ∨ op = 0xe5 ∨ op = 0xf5 then some (op_push_r16 op c m)
  else if op = 0xc4 ∨ op = 0xcc ∨ op = 0xcd ∨ op = 0xd4 ∨ op = 0xdc then some (op_call op c m)
  else if op = 0xcb then op_cb c m
  else if op = 0x20 then some (op_jr_nz c m)
  else if op = 0x2f then some (op_cpl c m)
  else if op = 0x30 then some (op_jr_nc c m)
  else if op = 0xc3 then some (op_jp c m)
  else if op = 0xc2 ∨ op = 0xca ∨ op = 0xd2 ∨ op = 0xda then some (op_jp_cc op c m)
  else if op = 0xe0 then some (op_ldh_n_a c m)
  else if op = 0xe8 then some (op_add_sp c m)
  else if op = 0xe9 then some ({c with pc := c.regs.hl}, m, 4, true)    -- JP (HL)
  else if op = 0xf0 then some (op_ldh_a_n c m)
  else if op = 0xe2 then
    some (c, m.write (0xff00 + c.regs.c) c.regs.a, 8, false)    -- LD (0xff00+C),A
  else if op = 0xea then some (op_ld_a16_a c m)
  else if op = 0xc7 ∨ op = 0xcf ∨ op = 0xd7 ∨ op = 0xdf ∨
      op = 0xe7 ∨ op = 0xef ∨ op = 0xf7 ∨ op = 0xff then some (op_rst op c m)
  else if op = 0xd9 then some (op_reti c m)
  else if op = 0xfa then some (op_ld_a_a16 c m)
  else if op = 0xf2 then
    -- LD A,(0xff00+C)
    some ({c with regs := {c.regs with a := m.load (c.regs.c + 0xff00)}}, m, 8, false)
  else if op = 0xf3 then some ({c with interrupts_enabled := false}, m, 4, false)   -- DI
  else if op = 0xfb then some ({c with interrupts_enabled := true}, m, 4, false)    -- EI
  else if op = 0xf8 then some (op_ld_hl_sp_n c m)
  else if op = 0xf9 then some ({c with sp := c.regs.hl}, m, 8, false)    -- LD SP,HL
  else
    none   -- unknown opcode: `panic!()`

/-- Fetch the opcode at PC and run the matched arm. -/
def Cpu.decode_step (c : Cpu) (m : Store) : Option (Cpu × Store × Nat × Bool) :=
  c.exec_op m (m.load c.pc)

/-- `Cpu::decode`: run the matched arm, then (unless the arm returned
early) the trailing `self.pc += 1`, yielding the cycle count. -/
def Cpu.decode (c : Cpu) (m : Store) : Option (Cpu × Store × Nat) :=
  match c.decode_step m with
  | none => none
  | some (c1, m1, cycles, early) =>
    if early then some (c1, m1, cycles)
    else some ({c1 with pc := (c1.pc + 1) % 65536}, m1, cycles)

/-! ## Derived definitions used by the statements below -/

/-- The pure LY/dot-counter effect of one `Gpu::display` call (LCD on):
accumulate the dots, advance LY (wrapping 153 → 0) once 116 have
accumulated. -/
def tick_ly (p : Nat × Nat) (n : Nat) : Nat × Nat :=
  if 116 ≤ p.2 + n then (if p.1 = 153 then 0 else p.1 + 1, 0) else (p.1, p.2 + n)

/-- How many of the `Gpu::display` calls in the sequence report a VBlank
interrupt. -/
def vb_count (g : Gpu) : List Nat → Nat
  | [] => 0
  | n :: rest =>
    let r := g.display n
    (match r.2 with
     | some Interrupt.VBlank => 1
     | _ => 0) + vb_count r.1 rest

/-- `vb_count` on the pure timing model. -/
def vb_count_model (p : Nat × Nat) : List Nat → Nat
  | [] => 0
  | n :: rest =>
    let p1 := tick_ly p n
    (if p1.1 = 144 then 1 else 0) + vb_count_model p1 rest

/-- A GPU right after the bus write LCDC := 0x80 (LCD on, everything else
off), as produced from `Gpu::new`. -/
def lcd_on : Gpu := Gpu.write Gpu.new 0xff40 0x80

/-- A sequence of display calls carrying exactly one frame of dot-ticks
(154 scanlines x 116 dots in this implementation), delivered so that two
consecutive calls end within scanline 144. -/
def frame_seq : List Nat := List.replicate 144 116 ++ [58, 58] ++ List.replicate 9 116

/-- A 256-byte boot ROM image (contents irrelevant; 0xAA everywhere). -/
def boot_bytes : List Nat := List.replicate 256 0xaa

/-- A cartridge ROM image (contents irrelevant; 0xBB everywhere). -/
def cart_bytes : List Nat := List.replicate 300 0xbb

/-- The startup bus for the boot-ROM claims. -/
def c1_state : Memory := Memory.startup boot_bytes cart_bytes

/-- A mapping-free bus whose work RAM holds `a % 7` at offset `a`, used to
exercise the OAM DMA. -/
def dma_demo_state : Memory :=
  {Memory.startup [] [] with mappings := [], ram := fun a => a % 7}

/-- The OAM contents produced by a successful DMA run over the offset
list `l`, reading each source byte from the pre-DMA bus `st0`. -/
def oam_after_dma (st0 : Memory) (base : Nat) (l : List Nat) (o : Nat → Nat) : Nat → Nat :=
  l.foldl (fun o2 j => upd o2 j ((st0.load (base + j)).getD 0)) o

/-- The bus after writing 0xC0 to the DMA register on `dma_demo_state`. -/
def dma_demo_out : Memory :=
  (dma_demo_state.write 0xff46 0xc0).getD dma_demo_state

/-- The bus after two writes to the boot-ROM unmap trigger 0xFF50. -/
def c1_after_two : Memory :=
  (Memory.apply_writes [(0xff50, 1), (0xff50, 1)] c1_state).getD c1_state

/-- The all-zero CPU store: every fetch yields opcode 0x00 (NOP). -/
def zero_store : Store := fun _ => 0

/-- The result of one NOP step from power-on. -/
def c2_demo_out : Cpu × Store × Nat :=
  (Cpu.new.decode zero_store).getD (Cpu.new, zero_store, 0)

/-- A store that always fetches 0x0F (RRCA, absent from the opcode map). -/
def rrca_store : Store := fun _ => 0x0f

/-- A store that always fetches 0x98 (SBC A,B, unimplemented). -/
def sbc_store : Store := fun _ => 0x98

/-- A store that fetches the CB prefix then 0x08 (RRC B, unimplemented). -/
def cb_rrc_store : Store := fun a => if a = 0 then 0xcb else 0x08

/-- A store that always fetches 0x88 (ADC A,B). -/
def adc_store : Store := fun _ => 0x88

/-- A CPU with A = 0x08 and B = 0x08, carry clear. -/
def adc_cpu : Cpu := {Cpu.new with regs := {Registers.default with a := 8, b := 8}}

/-- The CALL/RET scenario memory: CD 10 C0 at 0xC000 and C9 at 0xC010. -/
def call_ret_store : Store := fun a =>
  if a = 0xc000 then 0xcd
  else if a = 0xc001 then 0x10
  else if a = 0xc002 then 0xc0
  else if a = 0xc010 then 0xc9
  else 0

/-- The CALL/RET scenario CPU: PC = 0xC000, SP = 0xDFF0. -/
def call_ret_cpu : Cpu := {Cpu.new with pc := 0xc000, sp := 0xdff0}

/-- Executing the CALL and then the RET of the scenario. -/
def call_ret_run : Option (Cpu × Store × Nat) :=
  (call_ret_cpu.decode call_ret_store).bind (fun r => r.1.decode r.2.1)

/-- A GPU whose OAM entry 0 has X byte 8 (adjusted x = 0), sprites
enabled. -/
def sprite_skip_gpu : Gpu :=
  {Gpu.new with oam := upd Gpu.new.oam 1 8, lcdc := 0x82}

/-! ## Lemmas about the low nibble of the flags byte -/

theorem testBit_and15 (f : Nat) (h : f &&& 15 = 0) (i : Nat) :
    (f.testBit i && (15 : Nat).testBit i) = false := by
  have h1 := congrArg (fun x => Nat.testBit x i) h
  simpa [Nat.testBit_and] using h1

theorem and_15_or_zero (f flag : Nat) (hflag : flag &&& 15 = 0) (h : f &&& 15 = 0) :
    (f ||| flag) &&& 15 = 0 := by
  apply Nat.eq_of_testBit_eq
  intro i
  have h1 := testBit_and15 f h i
  have h2 := testBit_and15 flag hflag i
  simp only [Nat.testBit_and, Nat.testBit_or, Nat.zero_testBit]
  cases hf : f.testBit i <;> cases hg : flag.testBit i <;>
    cases h15 : (15 : Nat).testBit i <;> simp_all

theorem and_15_and_zero (f g : Nat) (h : f &&& 15 = 0) :
    (f &&& g) &&& 15 = 0 := by
  apply Nat.eq_of_testBit_eq
  intro i
  have h1 := testBit_and15 f h i
  simp only [Nat.testBit_and, Nat.zero_testBit]
  cases hf : f.testBit i <;> cases hg : g.testBit i <;>
    cases h15 : (15 : Nat).testBit i <;> simp_all

theorem and_15_240 (v : Nat) : (v &&& 240) &&& 15 = 0 := by
  rw [Nat.and_assoc, show (240 : Nat) &&& 15 = 0 from by decide]
  simp

theorem Registers.set_flag_flags (r : Registers) (flag : Nat) (b : Bool) :
    (r.set_flag flag b).flags =
      if b then r.flags ||| flag else r.flags &&& (255 ^^^ flag) := by
  unfold Registers.set_flag
  split <;> rfl

theorem Location.store8_flags (l : Location) (r : Registers) (m : Store) (v : Nat) :
    (l.store8 r m v).1.flags = r.flags := by
  cases l with
  | Register r8 => cases r8 <;> rfl
  | Address a => rfl

set_option maxHeartbeats 1600000 in
theorem op_ld_r16_nn_flags (op : Nat) (c : Cpu) (m : Store) (h : c.regs.flags &&& 15 = 0) :
    (op_ld_r16_nn op c m).1.regs.flags &&& 15 = 0 := by
  unfold op_ld_r16_nn
  dsimp only
  repeat'
    first
    | assumption
    | exact and_15_240 _
    | split
    | refine and_15_or_zero _ _ (by decide) ?_
    | refine and_15_and_zero _ _ ?_
    | simp only [Location.store8_flags, Registers.set_flag_flags, Registers.write_bc,
        Registers.write_de, Registers.write_hl, Registers.write_af]

set_option maxHeartbeats 1600000 in
theorem op_dec_r8_flags (op : Nat) (c : Cpu) (m : Store) (h : c.regs.flags &&& 15 = 0) :
    (op_dec_r8 op c m).1.regs.flags &&& 15 = 0 := by
  unfold op_dec_r8
  dsimp only
  repeat'
    first
    | assumption
    | exact and_15_240 _
    | split
    | refine and_15_or_zero _ _ (by decide) ?_
    | refine and_15_and_zero _ _ ?_
    | simp only [Location.store8_flags, Registers.set_flag_flags, Registers.write_bc,
        Registers.write_de, Registers.write_hl, Registers.write_af]

set_option maxHeartbeats 1600000 in
theorem op_add_hl_flags (op : Nat) (c : Cpu) (m : Store) (h : c.regs.flags &&& 15 = 0) :
    (op_add_hl op c m).1.regs.flags &&& 15 = 0 := by
  unfold op_add_hl
  dsimp only
  repeat'
    first
    | assumption
    | exact and_15_240 _
    | split
    | refine and_15_or_zero _ _ (by decide) ?_
    | refine and_15_and_zero _ _ ?_
    | simp only [Location.store8_flags, Registers.set_flag_flags, Registers.write_bc,
        Registers.write_de, Registers.write_hl, Registers.write_af]

set_option maxHeartbeats 1600000 in
theorem op_ld_a_r16_flags (op : Nat) (c : Cpu) (m : Store) (h : c.regs.flags &&& 15 = 0) :
    (op_ld_a_r16 op c m).1.regs.flags &&& 15 = 0 := by
  unfold op_ld_a_r16
  dsimp only
  repeat'
    first
    | assumption
    | exact and_15_240 _
    | split
    | refine and_15_or_zero _ _ (by decide) ?_
    | refine and_15_and_zero _ _ ?_
    | simp only [Location.store8_flags, Registers.set_flag_flags, Registers.write_bc,
        Registers.write_de, Registers.write_hl, Registers.write_af]

set_option maxHeartbeats 1600000 in
theorem op_ld_r8_n_flags (op : Nat) (c : Cpu) (m : Store) (h : c.regs.flags &&& 15 = 0) :
    (op_ld_r8_n op c m).1.regs.flags &&& 15 = 0 := by
  unfold op_ld_r8_n
  dsimp only
  repeat'
    first
    | assumption
    | exact and_15_240 _
    | split
    | refine and_15_or_zero _ _ (by decide) ?_
    | refine and_15_and_zero _ _ ?_
    | simp only [Location.store8_flags, Registers.set_flag_flags, Registers.write_bc,
        Registers.write_de, Registers.write_hl, Registers.write_af]

set_option maxHeartbeats 1600000 in
theorem op_inc_r16_flags (op : Nat) (c : Cpu) (m : Store) (h : c.regs.flags &&& 15 = 0) :
    (op_inc_r16 op c m).1.regs.flags &&& 15 = 0 := by
  unfold op_inc_r16
  dsimp only
  repeat'
    first
    | assumption
    | exact and_15_240 _
    | split
    | refine and_15_or_zero _ _ (by decide) ?_
    | refine and_15_and_zero _ _ ?_
    | simp only [Location.store8_flags, Registers.set_flag_flags, Registers.write_bc,
        Registers.write_de, Registers.write_hl, Registers.write_af]

set_option maxHeartbeats 1600000 in
theorem op_dec_r16_flags (op : Nat) (c : Cpu) (m : Store) (h : c.regs.flags &&& 15 = 0) :
    (op_dec_r16 op c m).1.regs.flags &&& 15 = 0 := by
  unfold op_dec_r16
  dsimp only
  repeat'
    first
    | assumption
    | exact and_15_240 _
    | split
    | refine and_15_or_zero _ _ (by decide) ?_
    | refine and_15_and_zero _ _ ?_
    | simp only [Location.store8_flags, Registers.set_flag_flags, Registers.write_bc,
        Registers.write_de, Registers.write_hl, Registers.write_af]

set_option maxHeartbeats 1600000 in
theorem op_inc_r8_flags (op : Nat) (c : Cpu) (m : Store) (h : c.regs.flags &&& 15 = 0) :
    (op_inc_r8 op c m).1.regs.flags &&& 15 = 0 := by
  unfold op_inc_r8
  dsimp only
  repeat'
    first
    | assumption
    | exact and_15_240 _
    | split
    | refine and_15_or_zero _ _ (by decide) ?_
    | refine and_15_and_zero _ _ ?_
    | simp only [Location.store8_flags, Registers.set_flag_flags, Registers.write_bc,
        Registers.write_de, Registers.write_hl, Registers.write_af]

set_option maxHeartbeats 1600000 in
theorem op_ld_r_r_flags (op : Nat) (c : Cpu) (m : Store) (h : c.regs.flags &&& 15 = 0) :
    (op_ld_r_r op c m).1.regs.flags &&& 15 = 0 := by
  unfold op_ld_r_r
  dsimp only
  repeat'
    first
    | assumption
    | exact and_15_240 _
    | split
    | refine and_15_or_zero _ _ (by decide) ?_
    | refine and_15_and_zero _ _ ?_
    | simp only [Location.store8_flags, Registers.set_flag_flags, Registers.write_bc,
        Registers.write_de, Registers.write_hl, Registers.write_af]

set_option maxHeartbeats 1600000 in
theorem op_pop_r16_flags (op : Nat) (c : Cpu) (m : Store) (h : c.regs.flags &&& 15 = 0) :
    (op_pop_r16 op c m).1.regs.flags &&& 15 = 0 := by
  unfold op_pop_r16
  dsimp only
  repeat'
    first
    | assumption
    | exact and_15_240 _
    | split
    | refine and_15_or_zero _ _ (by decide) ?_
    | refine and_15_and_zero _ _ ?_
    | simp only [Location.store8_flags, Registers.set_flag_flags, Registers.write_bc,
        Registers.write_de, Registers.write_hl, Registers.write_af]

set_option maxHeartbeats 1600000 in
theorem op_push_r16_flags (op : Nat) (c : Cpu) (m : Store) (h : c.regs.flags &&& 15 = 0) :
    (op_push_r16 op c m).1.regs.flags &&& 15 = 0 := by
  unfold op_push_r16
  dsimp only
  repeat'
    first
    | assumption
    | exact and_15_240 _
    | split
    | refine and_15_or_zero _ _ (by decide) ?_
    | refine and_15_and_zero _ _ ?_
    | simp only [Location.store8_flags, Registers.set_flag_flags, Registers.write_bc,
        Registers.write_de, Registers.write_hl, Registers.write_af]

set_option maxHeartbeats 1600000 in
theorem op_call_flags (op : Nat) (c : Cpu) (m : Store) (h : c.regs.flags &&& 15 = 0) :
    (op_call op c m).1.regs.flags &&& 15 = 0 := by
  unfold op_call
  dsimp only
  repeat'
    first
    | assumption
    | exact and_15_240 _
    | split
    | refine and_15_or_zero _ _ (by decide) ?_
    | refine and_15_and_zero _ _ ?_
    | simp only [Location.store8_flags, Registers.set_flag_flags, Registers.write_bc,
        Registers.write_de, Registers.write_hl, Registers.write_af]

set_option maxHeartbeats 1600000 in
theorem op_jp_cc_flags (op : Nat) (c : Cpu) (m : Store) (h : c.regs.flags &&& 15 = 0) :
    (op_jp_cc op c m).1.regs.flags &&& 15 = 0 := by
  unfold op_jp_cc
  dsimp only
  repeat'
    first
    | assumption
    | exact and_15_240 _
    | split
    | refine and_15_or_zero _ _ (by decide) ?_
    | refine and_15_and_zero _ _ ?_
    | simp only [Location.store8_flags, Registers.set_flag_flags, Registers.write_bc,
        Registers.write_de, Registers.write_hl, Registers.write_af]

set_option maxHeartbeats 1600000 in
theorem op_rst_flags (op : Nat) (c : Cpu) (m : Store) (h : c.regs.flags &&& 15 = 0) :
    (op_rst op c m).1.regs.flags &&& 15 = 0 := by
  unfold op_rst
  dsimp only
  repeat'
    first
    | assumption
    | exact and_15_240 _
    | split
    | refine and_15_or_zero _ _ (by decide) ?_
    | refine and_15_and_zero _ _ ?_
    | simp only [Location.store8_flags, Registers.set_flag_flags, Registers.write_bc,
        Registers.write_de, Registers.write_hl, Registers.write_af]

set_option maxHeartbeats 1600000 in
theorem op_rlca_flags (c : Cpu) (m : Store) (h : c.regs.flags &&& 15 = 0) :
    (op_rlca c m).1.regs.flags &&& 15 = 0 := by
  unfold op_rlca
  dsimp only
  repeat'
    first
    | assumption
    | exact and_15_240 _
    | split
    | refine and_15_or_zero _ _ (by decide) ?_
    | refine and_15_and_zero _ _ ?_
    | simp only [Location.store8_flags, Registers.set_flag_flags, Registers.write_bc,
        Registers.write_de, Registers.write_hl, Registers.write_af]

set_option maxHeartbeats 1600000 in
theorem op_ld_a16_sp_flags (c : Cpu) (m : Store) (h : c.regs.flags &&& 15 = 0) :
    (op_ld_a16_sp c m).1.regs.flags &&& 15 = 0 := by
  unfold op_ld_a16_sp
  dsimp only
  repeat'
    first
    | assumption
    | exact and_15_240 _
    | split
    | refine and_15_or_zero _ _ (by decide) ?_
    | refine and_15_and_zero _ _ ?_
    | simp only [Location.store8_flags, Registers.set_flag_flags, Registers.write_bc,
        Registers.write_de, Registers.write_hl, Registers.write_af]

set_option maxHeartbeats 1600000 in
theorem op_rla_flags (c : Cpu) (m : Store) (h : c.regs.flags &&& 15 = 0) :
    (op_rla c m).1.regs.flags &&& 15 = 0 := by
  unfold op_rla
  dsimp only
  repeat'
    first
    | assumption
    | exact and_15_240 _
    | split
    | refine and_15_or_zero _ _ (by decide) ?_
    | refine and_15_and_zero _ _ ?_
    | simp only [Location.store8_flags, Registers.set_flag_flags, Registers.write_bc,
        Registers.write_de, Registers.write_hl, Registers.write_af]

set_option maxHeartbeats 1600000 in
theorem op_rra_flags (c : Cpu) (m : Store) (h : c.regs.flags &&& 15 = 0) :
    (op_rra c m).1.regs.flags &&& 15 = 0 := by
  unfold op_rra
  dsimp only
  repeat'
    first
    | assumption
    | exact and_15_240 _
    | split
    | refine and_15_or_zero _ _ (by decide) ?_
    | refine and_15_and_zero _ _ ?_
    | simp only [Location.store8_flags, Registers.set_flag_flags, Registers.write_bc,
        Registers.write_de, Registers.write_hl, Registers.write_af]

set_option maxHeartbeats 1600000 in
theorem op_jr_flags (c : Cpu) (m : Store) (h : c.regs.flags &&& 15 = 0) :
    (op_jr c m).1.regs.flags &&& 15 = 0 := by
  unfold op_jr
  dsimp only
  repeat'
    first
    | assumption
    | exact and_15_240 _
    | split
    | refine and_15_or_zero _ _ (by decide) ?_
    | refine and_15_and_zero _ _ ?_
    | simp only [Location.store8_flags, Registers.set_flag_flags, Registers.write_bc,
        Registers.write_de, Registers.write_hl, Registers.write_af]

set_option maxHeartbeats 1600000 in
theorem op_jr_z_flags (c : Cpu) (m : Store) (h : c.regs.flags &&& 15 = 0) :
    (op_jr_z c m).1.regs.flags &&& 15 = 0 := by
  unfold op_jr_z
  dsimp only
  repeat'
    first
    | assumption
    | exact and_15_240 _
    | split
    | refine and_15_or_zero _ _ (by decide) ?_
    | refine and_15_and_zero _ _ ?_
    | simp only [Location.store8_flags, Registers.set_flag_flags, Registers.write_bc,
        Registers.write_de, Registers.write_hl, Registers.write_af]

set_option maxHeartbeats 1600000 in
theorem op_jr_c_flags (c : Cpu) (m : Store) (h : c.regs.flags &&& 15 = 0) :
    (op_jr_c c m).1.regs.flags &&& 15 = 0 := by
  unfold op_jr_c
  dsimp only
  repeat'
    first
    | assumption
    | exact and_15_240 _
    | split
    | refine and_15_or_zero _ _ (by decide) ?_
    | refine and_15_and_zero _ _ ?_
    | simp only [Location.store8_flags, Registers.set_flag_flags, Registers.write_bc,
        Registers.write_de, Registers.write_hl, Registers.write_af]

set_option maxHeartbeats 1600000 in
theorem op_ret_nz_flags (c : Cpu) (m : Store) (h : c.regs.flags &&& 15 = 0) :
    (op_ret_nz c m).1.regs.flags &&& 15 = 0 := by
  unfold op_ret_nz
  dsimp only
  repeat'
    first
    | assumption
    | exact and_15_240 _
    | split
    | refine and_15_or_zero _ _ (by decide) ?_
    | refine and_15_and_zero _ _ ?_
    | simp only [Location.store8_flags, Registers.set_flag_flags, Registers.write_bc,
        Registers.write_de, Registers.write_hl, Registers.write_af]

set_option maxHeartbeats 1600000 in
theorem op_ret_z_flags (c : Cpu) (m : Store) (h : c.regs.flags &&& 15 = 0) :
    (op_ret_z c m).1.regs.flags &&& 15 = 0 := by
  unfold op_ret_z
  dsimp only
  repeat'
    first
    | assumption
    | exact and_15_240 _
    | split
    | refine and_15_or_zero _ _ (by decide) ?_
    | refine and_15_and_zero _ _ ?_
    | simp only [Location.store8_flags, Registers.set_flag_flags, Registers.write_bc,
        Registers.write_de, Registers.write_hl, Registers.write_af]

set_option maxHeartbeats 1600000 in
theorem op_ret_flags (c : Cpu) (m : Store) (h : c.regs.flags &&& 15 = 0) :
    (op_ret c m).1.regs.flags &&& 15 = 0 := by
  unfold op_ret
  dsimp only
  repeat'
    first
    | assumption
    | exact and_15_240 _
    | split
    | refine and_15_or_zero _ _ (by decide) ?_
    | refine and_15_and_zero _ _ ?_
    | simp only [Location.store8_flags, Registers.set_flag_flags, Registers.write_bc,
        Registers.write_de, Registers.write_hl, Registers.write_af]

set_option maxHeartbeats 1600000 in
theorem op_jr_nz_flags (c : Cpu) (m : Store) (h : c.regs.flags &&& 15 = 0) :
    (op_jr_nz c m).1.regs.flags &&& 15 = 0 := by
  unfold op_jr_nz
  dsimp only
  repeat'
    first
    | assumption
    | exact and_15_240 _
    | split
    | refine and_15_or_zero _ _ (by decide) ?_
    | refine and_15_and_zero _ _ ?_
    | simp only [Location.store8_flags, Registers.set_flag_flags, Registers.write_bc,
        Registers.write_de, Registers.write_hl, Registers.write_af]

set_option maxHeartbeats 1600000 in
theorem op_cpl_flags (c : Cpu) (m : Store) (h : c.regs.flags &&& 15 = 0) :
    (op_cpl c m).1.regs.flags &&& 15 = 0 := by
  unfold op_cpl
  dsimp only
  repeat'
    first
    | assumption
    | exact and_15_240 _
    | split
    | refine and_15_or_zero _ _ (by decide) ?_
    | refine and_15_and_zero _ _ ?_
    | simp only [Location.store8_flags, Registers.set_flag_flags, Registers.write_bc,
        Registers.write_de, Registers.write_hl, Registers.write_af]

set_option maxHeartbeats 1600000 in
theorem op_jr_nc_flags (c : Cpu) (m : Store) (h : c.regs.flags &&& 15 = 0) :
    (op_jr_nc c m).1.regs.flags &&& 15 = 0 := by
  unfold op_jr_nc
  dsimp only
  repeat'
    first
    | assumption
    | exact and_15_240 _
    | split
    | refine and_15_or_zero _ _ (by decide) ?_
    | refine and_15_and_zero _ _ ?_
    | simp only [Location.store8_flags, Registers.set_flag_flags, Registers.write_bc,
        Registers.write_de, Registers.write_hl, Registers.write_af]

set_option maxHeartbeats 1600000 in
theorem op_jp_flags (c : Cpu) (m : Store) (h : c.regs.flags &&& 15 = 0) :
    (op_jp c m).1.regs.flags &&& 15 = 0 := by
  unfold op_jp
  dsimp only
  repeat'
    first
    | assumption
    | exact and_15_240 _
    | split
    | refine and_15_or_zero _ _ (by decide) ?_
    | refine and_15_and_zero _ _ ?_
    | simp only [Location.store8_flags, Registers.set_flag_flags, Registers.write_bc,
        Registers.write_de, Registers.write_hl, Registers.write_af]

set_option maxHeartbeats 1600000 in
theorem op_ldh_n_a_flags (c : Cpu) (m : Store) (h : c.regs.flags &&& 15 = 0) :
    (op_ldh_n_a c m).1.regs.flags &&& 15 = 0 := by
  unfold op_ldh_n_a
  dsimp only
  repeat'
    first
    | assumption
    | exact and_15_240 _
    | split
    | refine and_15_or_zero _ _ (by decide) ?_
    | refine and_15_and_zero _ _ ?_
    | simp only [Location.store8_flags, Registers.set_flag_flags, Registers.write_bc,
        Registers.write_de, Registers.write_hl, Registers.write_af]

set_option maxHeartbeats 1600000 in
theorem op_add_sp_flags (c : Cpu) (m : Store) (h : c.regs.flags &&& 15 = 0) :
    (op_add_sp c m).1.regs.flags &&& 15 = 0 := by
  unfold op_add_sp
  dsimp only
  repeat'
    first
    | assumption
    | exact and_15_240 _
    | split
    | refine and_15_or_zero _ _ (by decide) ?_
    | refine and_15_and_zero _ _ ?_
    | simp only [Location.store8_flags, Registers.set_flag_flags, Registers.write_bc,
        Registers.write_de, Registers.write_hl, Registers.write_af]

set_option maxHeartbeats 1600000 in
theorem op_ldh_a_n_flags (c : Cpu) (m : Store) (h : c.regs.flags &&& 15 = 0) :
    (op_ldh_a_n c m).1.regs.flags &&& 15 = 0 := by
  unfold op_ldh_a_n
  dsimp only
  repeat'
    first
    | assumption
    | exact and_15_240 _
    | split
    | refine and_15_or_zero _ _ (by decide) ?_
    | refine and_15_and_zero _ _ ?_
    | simp only [Location.store8_flags, Registers.set_flag_flags, Registers.write_bc,
        Registers.write_de, Registers.write_hl, Registers.write_af]

set_option maxHeartbeats 1600000 in
theorem op_ld_a16_a_flags (c : Cpu) (m : Store) (h : c.regs.flags &&& 15 = 0) :
    (op_ld_a16_a c m).1.regs.flags &&& 15 = 0 := by
  unfold op_ld_a16_a
  dsimp only
  repeat'
    first
    | assumption
    | exact and_15_240 _
    | split
    | refine and_15_or_zero _ _ (by decide) ?_
    | refine and_15_and_zero _ _ ?_
    | simp only [Location.store8_flags, Registers.set_flag_flags, Registers.write_bc,
        Registers.write_de, Registers.write_hl, Registers.write_af]

set_option maxHeartbeats 1600000 in
theorem op_reti_flags (c : Cpu) (m : Store) (h : c.regs.flags &&& 15 = 0) :
    (op_reti c m).1.regs.flags &&& 15 = 0 := by
  unfold op_reti
  dsimp only
  repeat'
    first
    | assumption
    | exact and_15_240 _
    | split
    | refine and_15_or_zero _ _ (by decide) ?_
    | refine and_15_and_zero _ _ ?_
    | simp only [Location.store8_flags, Registers.set_flag_flags, Registers.write_bc,
        Registers.write_de, Registers.write_hl, Registers.write_af]

set_option maxHeartbeats 1600000 in
theorem op_ld_a_a16_flags (c : Cpu) (m : Store) (h : c.regs.flags &&& 15 = 0) :
    (op_ld_a_a16 c m).1.regs.flags &&& 15 = 0 := by
  unfold op_ld_a_a16
  dsimp only
  repeat'
    first
    | assumption
    | exact and_15_240 _
    | split
    | refine and_15_or_zero _ _ (by decide) ?_
    | refine and_15_and_zero _ _ ?_
    | simp only [Location.store8_flags, Registers.set_flag_flags, Registers.write_bc,
        Registers.write_de, Registers.write_hl, Registers.write_af]

set_option maxHeartbeats 1600000 in
theorem op_ld_hl_sp_n_flags (c : Cpu) (m : Store) (h : c.regs.flags &&& 15 = 0) :
    (op_ld_hl_sp_n c m).1.regs.flags &&& 15 = 0 := by
  unfold op_ld_hl_sp_n
  dsimp only
  repeat'
    first
    | assumption
    | exact and_15_240 _
    | split
    | refine and_15_or_zero _ _ (by decide) ?_
    | refine and_15_and_zero _ _ ?_
    | simp only [Location.store8_flags, Registers.set_flag_flags, Registers.write_bc,
        Registers.write_de, Registers.write_hl, Registers.write_af]

theorem alu_operand_flags (op : Nat) (c : Cpu) (m : Store) :
    (alu_operand op c m).1.regs.flags = c.regs.flags := by
  unfold alu_operand
  dsimp only
  split <;> rfl

set_option maxHeartbeats 1600000 in
theorem alu_exec_flags (subop : Nat) (c0 : Cpu) (n cycles : Nat) (m : Store)
    (out : Cpu × Store × Nat × Bool)
    (h : c0.regs.flags &&& 15 = 0) (heq : alu_exec subop c0 n cycles m = some out) :
    out.1.regs.flags &&& 15 = 0 := by
  unfold alu_exec at heq
  dsimp only at heq
  repeat' split at heq
  all_goals
    first
    | exact Option.noConfusion heq
    | (have hx := Option.some.inj heq
       subst hx
       dsimp only
       repeat'
         first
         | assumption
         | exact Nat.zero_and 15
         | exact and_15_240 _
         | split
         | refine and_15_or_zero _ _ (by decide) ?_
         | refine and_15_and_zero _ _ ?_
         | simp only [Location.store8_flags, Registers.set_flag_flags, Registers.write_bc,
             Registers.write_de, Registers.write_hl, Registers.write_af]
      )

theorem op_alu_flags (op : Nat) (c : Cpu) (m : Store) (out : Cpu × Store × Nat × Bool)
    (h : c.regs.flags &&& 15 = 0) (heq : op_alu op c m = some out) :
    out.1.regs.flags &&& 15 = 0 := by
  unfold op_alu at heq
  refine alu_exec_flags ((op &&& 0b111000) >>> 3) (alu_operand op c m).1
    (alu_operand op c m).2.1 (alu_operand op c m).2.2 m out ?_ heq
  rw [alu_operand_flags]
  exact h

set_option maxHeartbeats 1600000 in
theorem op_cb_flags (c : Cpu) (m : Store) (out : Cpu × Store × Nat × Bool)
    (h : c.regs.flags &&& 15 = 0) (heq : op_cb c m = some out) :
    out.1.regs.flags &&& 15 = 0 := by
  unfold op_cb at heq
  dsimp only at heq
  repeat' split at heq
  all_goals
    first
    | exact Option.noConfusion heq
    | (have hx := Option.some.inj heq
       subst hx
       dsimp only
       repeat'
         first
         | assumption
         | exact Nat.zero_and 15
         | exact and_15_240 _
         | split
         | refine and_15_or_zero _ _ (by decide) ?_
         | refine and_15_and_zero _ _ ?_
         | simp only [Location.store8_flags, Registers.set_flag_flags, Registers.write_bc,
             Registers.write_de, Registers.write_hl, Registers.write_af])

set_option maxHeartbeats 1600000 in
/-- Low-nibble preservation across the whole opcode dispatcher. -/
theorem exec_op_flags (c : Cpu) (m : Store) (op : Nat) (out : Cpu × Store × Nat × Bool)
    (h : c.regs.flags &&& 15 = 0) (heq : c.exec_op m op = some out) :
    out.1.regs.flags &&& 15 = 0 := by
  unfold Cpu.exec_op at heq
  by_cases k1 : op = 0
  · rw [if_pos k1] at heq
    have hx := Option.some.inj heq
    subst hx
    exact h
  rw [if_neg k1] at heq
  by_cases k2 : op = 1 ∨ op = 17 ∨ op = 33 ∨ op = 49
  · rw [if_pos k2] at heq
    have hx := Option.some.inj heq
    subst hx
    exact op_ld_r16_nn_flags op c m h
  rw [if_neg k2] at heq
  by_cases k3 : op = 5 ∨ op = 21 ∨ op = 37 ∨ op = 53 ∨ op = 13 ∨ op = 29 ∨ op = 45 ∨ op = 61
  · rw [if_pos k3] at heq
    have hx := Option.some.inj heq
    subst hx
    exact op_dec_r8_flags op c m h
  rw [if_neg k3] at heq
  by_cases k4 : op = 7
  · rw [if_pos k4] at heq
    have hx := Option.some.inj heq
    subst hx
    exact op_rlca_flags c m h
  rw [if_neg k4] at heq
  by_cases k5 : op = 8
  · rw [if_pos k5] at heq
    have hx := Option.some.inj heq
    subst hx
    exact op_ld_a16_sp_flags c m h
  rw [if_neg k5] at heq
  by_cases k6 : op = 23
  · rw [if_pos k6] at heq
    have hx := Option.some.inj heq
    subst hx
    exact op_rla_flags c m h
  rw [if_neg k6] at heq
  by_cases k7 : op = 31
  · rw [if_pos k7] at heq
    have hx := Option.some.inj heq
    subst hx
    exact op_rra_flags c m h
  rw [if_neg k7] at heq
  by_cases k8 : op = 9 ∨ op = 25 ∨ op = 41 ∨ op = 57
  · rw [if_pos k8] at heq
    have hx := Option.some.inj heq
    subst hx
    exact op_add_hl_flags op c m h
  rw [if_neg k8] at heq
  by_cases k9 : op = 10 ∨ op = 26 ∨ op = 42 ∨ op = 58
  · rw [if_pos k9] at heq
    have hx := Option.some.inj heq
    subst hx
    exact op_ld_a_r16_flags op c m h
  rw [if_neg k9] at heq
  by_cases k10 : op = 6 ∨ op = 22 ∨ op = 38 ∨ op = 54 ∨ op = 14 ∨ op = 30 ∨ op = 46 ∨ op = 62
  · rw [if_pos k10] at heq
    have hx := Option.some.inj heq
    subst hx
    exact op_ld_r8_n_flags op c m h
  rw [if_neg k10] at heq
  by_cases k11 : op = 3 ∨ op = 19 ∨ op = 35 ∨ op = 51
  · rw [if_pos k11] at heq
    have hx := Option.some.inj heq
    subst hx
    exact op_inc_r16_flags op c m h
  rw [if_neg k11] at heq
  by_cases k12 : op = 24
  · rw [if_pos k12] at heq
    have hx := Option.some.inj heq
    subst hx
    exact op_jr_flags c m h
  rw [if_neg k12] at heq
  by_cases k13 : op = 40
  · rw [if_pos k13] at heq
    have hx := Option.some.inj heq
    subst hx
    exact op_jr_z_flags c m h
  rw [if_neg k13] at heq
  by_cases k14 : op = 56
  · rw [if_pos k14] at heq
    have hx := Option.some.inj heq
    subst hx
    exact op_jr_c_flags c m h
  rw [if_neg k14] at heq
  by_cases k15 : op = 11 ∨ op = 27 ∨ op = 43 ∨ op = 59
  · rw [if_pos k15] at heq
    have hx := Option.some.inj heq
    subst hx
    exact op_dec_r16_flags op c m h
  rw [if_neg k15] at heq
  by_cases k16 : op = 4 ∨ op = 20 ∨ op = 36 ∨ op = 52 ∨ op = 12 ∨ op = 28 ∨ op = 44 ∨ op = 60
  · rw [if_pos k16] at heq
    have hx := Option.some.inj heq
    subst hx
    exact op_inc_r8_flags op c m h
  rw [if_neg k16] at heq
  by_cases k17 : op = 2
  · rw [if_pos k17] at heq
    have hx := Option.some.inj heq
    subst hx
    exact h
  rw [if_neg k17] at heq
  by_cases k18 : op = 18
  · rw [if_pos k18] at heq
    have hx := Option.some.inj heq
    subst hx
    exact h
  rw [if_neg k18] at heq
  by_cases k19 : op = 34
  · rw [if_pos k19] at heq
    have hx := Option.some.inj heq
    subst hx
    exact h
  rw [if_neg k19] at heq
  by_cases k20 : op = 50
  · rw [if_pos k20] at heq
    have hx := Option.some.inj heq
    subst hx
    exact h
  rw [if_neg k20] at heq
  by_cases k21 : op = 118
  · rw [if_pos k21] at heq
    have hx := Option.some.inj heq
    subst hx
    exact h
  rw [if_neg k21] at heq
  by_cases k22 : 64 ≤ op ∧ op ≤ 127
  · rw [if_pos k22] at heq
    have hx := Option.some.inj heq
    subst hx
    exact op_ld_r_r_flags op c m h
  rw [if_neg k22] at heq
  by_cases k23 : (128 ≤ op ∧ op ≤ 191) ∨ op = 198 ∨ op = 214 ∨ op = 230 ∨ op = 246 ∨ op = 206 ∨ op = 222 ∨ op = 238 ∨ op = 254
  · rw [if_pos k23] at heq
    exact op_alu_flags op c m out h heq
  rw [if_neg k23] at heq
  by_cases k24 : op = 192
  · rw [if_pos k24] at heq
    have hx := Option.some.inj heq
    subst hx
    exact op_ret_nz_flags c m h
  rw [if_neg k24] at heq
  by_cases k25 : op = 200
  · rw [if_pos k25] at heq
    have hx := Option.some.inj heq
    subst hx
    exact op_ret_z_flags c m h
  rw [if_neg k25] at heq
  by_cases k26 : op = 193 ∨ op = 209 ∨ op = 225 ∨ op = 241
  · rw [if_pos k26] at heq
    have hx := Option.some.inj heq
    subst hx
    exact op_pop_r16_flags op c m h
  rw [if_neg k26] at heq
  by_cases k27 : op = 201
  · rw [if_pos k27] at heq
    have hx := Option.some.inj heq
    subst hx
    exact op_ret_flags c m h
  rw [if_neg k27] at heq
  by_cases k28 : op = 197 ∨ op = 213 ∨ op = 229 ∨ op = 245
  · rw [if_pos k28] at heq
    have hx := Option.some.inj heq
    subst hx
    exact op_push_r16_flags op c m h
  rw [if_neg k28] at heq
  by_cases k29 : op = 196 ∨ op = 204 ∨ op = 205 ∨ op = 212 ∨ op = 220
  · rw [if_pos k29] at heq
    have hx := Option.some.inj heq
    subst hx
    exact op_call_flags op c m h
  rw [if_neg k29] at heq
  by_cases k30 : op = 203
  · rw [if_pos k30] at heq
    exact op_cb_flags c m out h heq
  rw [if_neg k30] at heq
  by_cases k31 : op = 32
  · rw [if_pos k31] at heq
    have hx := Option.some.inj heq
    subst hx
    exact op_jr_nz_flags c m h
  rw [if_neg k31] at heq
  by_cases k32 : op = 47
  · rw [if_pos k32] at heq
    have hx := Option.some.inj heq
    subst hx
    exact op_cpl_flags c m h
  rw [if_neg k32] at heq
  by_cases k33 : op = 48
  · rw [if_pos k33] at heq
    have hx := Option.some.inj heq
    subst hx
    exact op_jr_nc_flags c m h
  rw [if_neg k33] at heq
  by_cases k34 : op = 195
  · rw [if_pos k34] at heq
    have hx := Option.some.inj heq
    subst hx
    exact op_jp_flags c m h
  rw [if_neg k34] at heq
  by_cases k35 : op = 194 ∨ op = 202 ∨ op = 210 ∨ op = 218
  · rw [if_pos k35] at heq
    have hx := Option.some.inj heq
    subst hx
    exact op_jp_cc_flags op c m h
  rw [if_neg k35] at heq
  by_cases k36 : op = 224
  · rw [if_pos k36] at heq
    have hx := Option.some.inj heq
    subst hx
    exact op_ldh_n_a_flags c m h
  rw [if_neg k36] at heq
  by_cases k37 : op = 232
  · rw [if_pos k37] at heq
    have hx := Option.some.inj heq
    subst hx
    exact op_add_sp_flags c m h
  rw [if_neg k37] at heq
  by_cases k38 : op = 233
  · rw [if_pos k38] at heq
    have hx := Option.some.inj heq
    subst hx
    exact h
  rw [if_neg k38] at heq
  by_cases k39 : op = 240
  · rw [if_pos k39] at heq
    have hx := Option.some.inj heq
    subst hx
    exact op_ldh_a_n_flags c m h
  rw [if_neg k39] at heq
  by_cases k40 : op = 226
  · rw [if_pos k40] at heq
    have hx := Option.some.inj heq
    subst hx
    exact h
  rw [if_neg k40] at heq
  by_cases k41 : op = 234
  · rw [if_pos k41] at heq
    have hx := Option.some.inj heq
    subst hx
    exact op_ld_a16_a_flags c m h
  rw [if_neg k41] at heq
  by_cases k42 : op = 199 ∨ op = 207 ∨ op = 215 ∨ op = 223 ∨ op = 231 ∨ op = 239 ∨ op = 247 ∨ op = 255
  · rw [if_pos k42] at heq
    have hx := Option.some.inj heq
    subst hx
    exact op_rst_flags op c m h
  rw [if_neg k42] at heq
  by_cases k43 : op = 217
  · rw [if_pos k43] at heq
    have hx := Option.some.inj heq
    subst hx
    exact op_reti_flags c m h
  rw [if_neg k43] at heq
  by_cases k44 : op = 250
  · rw [if_pos k44] at heq
    have hx := Option.some.inj heq
    subst hx
    exact op_ld_a_a16_flags c m h
  rw [if_neg k44] at heq
  by_cases k45 : op = 242
  · rw [if_pos k45] at heq
    have hx := Option.some.inj heq
    subst hx
    exact h
  rw [if_neg k45] at heq
  by_cases k46 : op = 243
  · rw [if_pos k46] at heq
    have hx := Option.some.inj heq
    subst hx
    exact h
  rw [if_neg k46] at heq
  by_cases k47 : op = 251
  · rw [if_pos k47] at heq
    have hx := Option.some.inj heq
    subst hx
    exact h
  rw [if_neg k47] at heq
  by_cases k48 : op = 248
  · rw [if_pos k48] at heq
    have hx := Option.some.inj heq
    subst hx
    exact op_ld_hl_sp_n_flags c m h
  rw [if_neg k48] at heq
  by_cases k49 : op = 249
  · rw [if_pos k49] at heq
    have hx := Option.some.inj heq
    subst hx
    exact h
  rw [if_neg k49] at heq
  exact Option.noConfusion heq

/-- Low-nibble preservation for the complete `Cpu::decode`. -/
theorem decode_flags (c : Cpu) (m : Store) (out : Cpu × Store × Nat)
    (h : c.regs.flags &&& 15 = 0) (heq : c.decode m = some out) :
    out.1.regs.flags &&& 15 = 0 := by
  unfold Cpu.decode at heq
  cases hstep : c.decode_step m with
  | none => rw [hstep] at heq; exact Option.noConfusion heq
  | some q =>
    obtain ⟨c1, m1, cy, early⟩ := q
    have hq : c1.regs.flags &&& 15 = 0 :=
      exec_op_flags c m (m.load c.pc) (c1, m1, cy, early) h hstep
    rw [hstep] at heq
    dsimp only at heq
    split at heq
    all_goals
      have hx := Option.some.inj heq
      subst hx
      exact hq

/-! ## Claims C2, C3, C4, C7, C8 -/

/-- Claim C2: for every reachable CPU state and every instruction executed
by `Cpu::decode`, the low four bits of the flags register F are 0 after
the instruction completes (POP AF masks the popped low byte with 0xf0).
Stated as: the power-on state satisfies the invariant, and every
completing `decode` step preserves it — which together cover every
reachable state. -/
theorem C2_flags_low_nibble :
    Cpu.new.regs.flags &&& 15 = 0 ∧
    ∀ (c : Cpu) (m : Store) (out : Cpu × Store × Nat),
      c.regs.flags &&& 15 = 0 → c.decode m = some out →
        out.1.regs.flags &&& 15 = 0 :=
  ⟨by decide, fun c m out h heq => decode_flags c m out h heq⟩

/-- Witness for C2: one NOP step from power-on keeps the low nibble of F
zero. -/
theorem C2_flags_low_nibble_witness : c2_demo_out.1.regs.flags &&& 15 = 0 :=
  C2_flags_low_nibble.2 Cpu.new zero_store c2_demo_out (by decide) rfl

/-- Claim C3 is violated by the code (code_bug): the opcode map is not
total.  Fetching 0x0F (RRCA, a documented LR35902 opcode) hits the
panicking catch-all arm; 0x98 (SBC A,B) and CB 0x08 (RRC B) hit
`unimplemented!()`.  `Cpu::decode` therefore panics (`none`) instead of
reaching a defined handler. -/
theorem C3_decode_panics_on_defined_opcodes :
    Cpu.new.decode rrca_store = none ∧
    Cpu.new.decode sbc_store = none ∧
    Cpu.new.decode cb_rrc_store = none :=
  ⟨rfl, rfl, rfl⟩

/-- Claim C4 is violated by the code (code_bug): the NOP arm leaves
`cycles` at its initial value 1, so `Cpu::decode` returns 1 machine
cycle for opcode 0x00, which is outside {4, 8, 12, 16, 20, 24}. -/
theorem C4_nop_returns_one_cycle :
    (Cpu.new.decode zero_store).map (fun r => r.2.2) = some 1 ∧
    ¬(1 = 4 ∨ 1 = 8 ∨ 1 = 12 ∨ 1 = 16 ∨ 1 = 20 ∨ 1 = 24) :=
  ⟨rfl, by decide⟩

/-- Claim C7 is violated by the code (code_bug): ADC computes the
half-carry from the already-updated accumulator.  With A = 0x08, n = 0x08
(register B) and carry clear, the claim (and the arm's own doc comment,
"H: Set if carry from bit 3") requires H = 1 since
(A&0xF)+(n&0xF)+c = 16 > 0xF, but the code computes
(result&0xF)+(n&0xF)+c = 8 and leaves H clear. -/
theorem C7_adc_half_carry_from_result :
    (adc_cpu.decode adc_store).map
        (fun r => (r.1.regs.a, r.1.regs.flags &&& HALF_CARRY_FLAG)) = some (0x10, 0) ∧
    (0x08 &&& 0xf) + (0x08 &&& 0xf) + 0 > 0xf :=
  ⟨rfl, by decide⟩

/-- Counterexample to claim C8 as stated: after the CALL of the scenario
the byte at 0xDFEE is 0xC0, not the claimed 0x03 (the code pushes the
return-address low byte at the HIGHER stack address). -/
theorem C8_stack_byte_counterexample :
    call_ret_run.map (fun r => r.2.1 0xdfee) = some 0xc0 ∧ (0xc0 : Nat) ≠ 0x03 :=
  ⟨rfl, by decide⟩

/-- Claim C8 as amended: the CALL/RET round trip ends with PC = 0xC003 and
SP = 0xDFF0 as claimed, but the stack bytes at 0xDFEE/0xDFEF are
0xC0/0x03 respectively (high byte at the lower address), the mirror image
of the claimed layout. -/
theorem C8_call_ret_round_trip :
    call_ret_run.map (fun r => (r.1.pc, r.1.sp, r.2.1 0xdfee, r.2.1 0xdfef)) =
      some (0xc003, 0xdff0, 0xc0, 0x03) :=
  rfl

/-! ## Claims C9 and C10 -/

/-- Claim C9 is violated by the code (code_bug): a bus write to 0xFF44
(LY) hits the `unimplemented!()` arm of `Memory::write` and panics for
every value, instead of completing and resetting LY to 0 as the claim,
the spec, and the code's own comment ("Writing will reset the counter")
state.  (Even `Gpu::write`, which the bus never reaches here, would set
LY to the written value rather than 0.) -/
theorem C9_ly_write_panics (st : Memory) (v : Nat) : st.write 0xff44 v = none := by
  unfold Memory.write
  norm_num

/-- Claim C10: in the OAM loop of `Gpu::display` (run when sprites are
enabled), an entry whose offset-adjusted position — x = X byte - 8,
y = Y byte - 16, with u8 wrapping — is 0 in either coordinate, or is at
least 168 horizontally or 160 vertically, is skipped entirely: processing
that entry leaves the GPU (in particular the framebuffer) unchanged. -/
theorem C10_sprite_skip (g : Gpu) (k : Nat)
    (h : (g.read (0xfe00 + 4 * k + 1) + 248) % 256 = 0 ∨
         (g.read (0xfe00 + 4 * k) + 240) % 256 = 0 ∨
         168 ≤ (g.read (0xfe00 + 4 * k + 1) + 248) % 256 ∨
         160 ≤ (g.read (0xfe00 + 4 * k) + 240) % 256) :
    g.sprite_step k = g := by
  unfold Gpu.sprite_step
  dsimp only
  rw [if_pos h]

/-- Witness for C10: a sprite with X byte 8 (adjusted x = 0) is skipped. -/
theorem C10_sprite_skip_witness : sprite_skip_gpu.sprite_step 0 = sprite_skip_gpu :=
  C10_sprite_skip sprite_skip_gpu 0 (Or.inl (by decide))

/-! ## Claim C6: VBlank timing of `Gpu::display` -/

theorem foldl_preserve {α : Type} (f : Gpu → α → Gpu) (P : Gpu → Nat)
    (hf : ∀ g a, P (f g a) = P g) :
    ∀ (l : List α) (g : Gpu), P (l.foldl f g) = P g := by
  intro l
  induction l with
  | nil => intro g; rfl
  | cons a t ih => intro g; rw [List.foldl_cons, ih, hf]

theorem sprite_step_ly (g : Gpu) (k : Nat) : (g.sprite_step k).ly = g.ly := by
  unfold Gpu.sprite_step
  dsimp only
  split <;> rfl

theorem sprite_step_cycles (g : Gpu) (k : Nat) : (g.sprite_step k).cycles = g.cycles := by
  unfold Gpu.sprite_step
  dsimp only
  split <;> rfl

theorem sprite_step_lcdc (g : Gpu) (k : Nat) : (g.sprite_step k).lcdc = g.lcdc := by
  unfold Gpu.sprite_step
  dsimp only
  split <;> rfl

theorem sprite_pass_ly (g : Gpu) : g.sprite_pass.ly = g.ly :=
  foldl_preserve _ Gpu.ly sprite_step_ly _ g

theorem sprite_pass_cycles (g : Gpu) : g.sprite_pass.cycles = g.cycles :=
  foldl_preserve _ Gpu.cycles sprite_step_cycles _ g

theorem sprite_pass_lcdc (g : Gpu) : g.sprite_pass.lcdc = g.lcdc :=
  foldl_preserve _ Gpu.lcdc sprite_step_lcdc _ g

theorem Gpu.show_tile_ly (g : Gpu) (t : List Nat) (x y : Nat) :
    (g.show_tile t x y).ly = g.ly := rfl

theorem Gpu.show_tile_cycles (g : Gpu) (t : List Nat) (x y : Nat) :
    (g.show_tile t x y).cycles = g.cycles := rfl

theorem Gpu.show_tile_lcdc (g : Gpu) (t : List Nat) (x y : Nat) :
    (g.show_tile t x y).lcdc = g.lcdc := rfl

theorem bg_pass_ly (g : Gpu) : g.bg_pass.ly = g.ly := by
  unfold Gpu.bg_pass
  exact foldl_preserve _ Gpu.ly (fun g2 i => Gpu.show_tile_ly g2 _ _ _) (List.range 1024) g

theorem bg_pass_cycles (g : Gpu) : g.bg_pass.cycles = g.cycles := by
  unfold Gpu.bg_pass
  exact foldl_preserve _ Gpu.cycles (fun g2 i => Gpu.show_tile_cycles g2 _ _ _) (List.range 1024) g

theorem bg_pass_lcdc (g : Gpu) : g.bg_pass.lcdc = g.lcdc := by
  unfold Gpu.bg_pass
  exact foldl_preserve _ Gpu.lcdc (fun g2 i => Gpu.show_tile_lcdc g2 _ _ _) (List.range 1024) g

theorem display_ly (g : Gpu) (n : Nat) (hlcd : g.lcdc &&& 128 ≠ 0) :
    (g.display n).1.ly = (tick_ly (g.ly, g.cycles) n).1 := by
  unfold Gpu.display tick_ly
  rw [if_neg hlcd]
  dsimp only
  repeat' split
  all_goals simp_all [bg_pass_ly, sprite_pass_ly]

theorem display_cycles (g : Gpu) (n : Nat) (hlcd : g.lcdc &&& 128 ≠ 0) :
    (g.display n).1.cycles = (tick_ly (g.ly, g.cycles) n).2 := by
  unfold Gpu.display tick_ly
  rw [if_neg hlcd]
  dsimp only
  repeat' split
  all_goals simp_all [bg_pass_cycles, sprite_pass_cycles]

theorem display_lcdc (g : Gpu) (n : Nat) (hlcd : g.lcdc &&& 128 ≠ 0) :
    (g.display n).1.lcdc = g.lcdc := by
  unfold Gpu.display
  rw [if_neg hlcd]
  dsimp only
  repeat' split
  all_goals simp_all [bg_pass_lcdc, sprite_pass_lcdc]

theorem display_vblank (g : Gpu) (n : Nat) (hlcd : g.lcdc &&& 128 ≠ 0) :
    ((g.display n).2 = some Interrupt.VBlank ↔ (tick_ly (g.ly, g.cycles) n).1 = 144) := by
  unfold Gpu.display tick_ly
  rw [if_neg hlcd]
  dsimp only
  repeat' split
  all_goals simp_all [bg_pass_ly, sprite_pass_ly]

/-- With the LCD enabled, counting VBlank reports over a call sequence
reduces to the pure LY/dot-counter model. -/
theorem vb_count_eq_model (l : List Nat) :
    ∀ g : Gpu, g.lcdc &&& 128 ≠ 0 →
      vb_count g l = vb_count_model (g.ly, g.cycles) l := by
  induction l with
  | nil => intro g _; rfl
  | cons n t ih =>
    intro g h
    unfold vb_count vb_count_model
    dsimp only
    have hly := display_ly g n h
    have hcy := display_cycles g n h
    have hlcdc := display_lcdc g n h
    have hvb := display_vblank g n h
    rw [ih (g.display n).1 (by rw [hlcdc]; exact h), hly, hcy]
    have hpair : ((tick_ly (g.ly, g.cycles) n).1, (tick_ly (g.ly, g.cycles) n).2) =
        tick_ly (g.ly, g.cycles) n := rfl
    rw [hpair]
    congr 1
    cases hd : (g.display n).2 with
    | none =>
      rw [hd] at hvb
      simp only [reduceCtorEq, false_iff] at hvb
      rw [if_neg hvb]
    | some i =>
      cases i with
      | VBlank =>
        rw [hd] at hvb
        simp only [true_iff] at hvb
        rw [if_pos hvb]
      | Status =>
        rw [hd] at hvb
        simp only [Option.some.injEq, reduceCtorEq, false_iff] at hvb
        rw [if_neg hvb]

/-- Claim C6 as amended: `Gpu::display` reports a VBlank interrupt at
exactly those tick calls at whose end LY equals 144 (and the LCD is
enabled) — not only at the 143 → 144 transition.  One VBlank per frame
holds only when every call carries at least 116 dots, so that LY advances
on each call. -/
theorem C6_vblank_characterization (g : Gpu) (n : Nat) :
    (g.display n).2 = some Interrupt.VBlank ↔
      (g.lcdc &&& 128 ≠ 0 ∧ (g.display n).1.ly = 144) := by
  by_cases hlcd : g.lcdc &&& 128 = 0
  · unfold Gpu.display
    rw [if_pos hlcd]
    simp [hlcd]
  · have hv := display_vblank g n hlcd
    have hly := display_ly g n hlcd
    rw [hv, hly]
    simp [hlcd]

set_option maxRecDepth 4000 in
/-- Counterexample to claim C6 as stated: starting from a fresh GPU with
the LCD just enabled, the frame-spanning call sequence `frame_seq`
(154 x 116 dots in total, LY returning to its starting value 0) sees the
VBlank interrupt reported twice — at the 143 → 144 transition and again
at the following 58-dot call that stays within line 144 — not exactly
once. -/
theorem C6_vblank_twice_in_one_frame :
    vb_count lcd_on frame_seq = 2 ∧ (2 : Nat) ≠ 1 := by
  constructor
  · rw [vb_count_eq_model frame_seq lcd_on (by decide)]
    decide
  · decide

/-! ## Claim C5: OAM DMA -/

theorem Gpu.write_oam (g : Gpu) (a v : Nat) (h1 : 0xfe00 ≤ a) (h2 : a ≤ 0xfe9f) :
    g.write a v = {g with oam := upd g.oam (a - 0xfe00) v} := by
  unfold Gpu.write
  rw [if_neg (by omega : ¬(0x8000 ≤ a ∧ a ≤ 0x9fff)), if_pos ⟨h1, h2⟩]

theorem Gpu.read_oam (g : Gpu) (a : Nat) (h1 : 0xfe00 ≤ a) (h2 : a ≤ 0xfe9f) :
    g.read a = g.oam (a - 0xfe00) := by
  unfold Gpu.read
  rw [if_neg (by omega : ¬(0x8000 ≤ a ∧ a ≤ 0x9fff)), if_pos ⟨h1, h2⟩]

/-- GPU reads below the OAM range do not depend on the OAM bytes. -/
theorem Gpu.read_oam_indep (g : Gpu) (o : Nat → Nat) (a : Nat) (h : a < 0xfe00) :
    Gpu.read {g with oam := o} a = g.read a := by
  unfold Gpu.read
  by_cases h1 : 0x8000 ≤ a ∧ a ≤ 0x9fff
  · rw [if_pos h1, if_pos h1]
  · rw [if_neg h1, if_neg h1]
    rw [if_neg (by omega : ¬(0xfe00 ≤ a ∧ a ≤ 0xfe9f)),
      if_neg (by omega : ¬(0xfe00 ≤ a ∧ a ≤ 0xfe9f))]

/-- Bus reads below the OAM range do not depend on the OAM bytes. -/
theorem Memory.load_oam_indep (st : Memory) (o : Nat → Nat) (a : Nat) (h : a < 0xfe00) :
    Memory.load {st with gpu := {st.gpu with oam := o}} a = st.load a := by
  unfold Memory.load Memory.mapping Memory.joyp
  dsimp only
  rw [Gpu.read_oam_indep st.gpu o a h]

theorem dma_loop_mappings (base : Nat) :
    ∀ (l : List Nat) (st st' : Memory),
      dma_loop base l st = some st' → st'.mappings = st.mappings := by
  intro l
  induction l with
  | nil =>
    intro st st' h
    have hx := Option.some.inj h
    subst hx
    rfl
  | cons i t ih =>
    intro st st' h
    unfold dma_loop at h
    cases hl : st.load (base + i) with
    | none => rw [hl] at h; exact Option.noConfusion h
    | some b =>
      rw [hl] at h
      dsimp only at h
      have h2 := ih _ _ h
      exact h2

/-- What the DMA loop does when it succeeds: the final state agrees with
the pre-DMA bus everywhere except OAM, every source byte load succeeds,
and OAM holds the bytes the loads of the PRE-DMA bus return (the loop's
own OAM writes cannot disturb its loads as long as the whole source range
lies below 0xFE00). -/
theorem dma_loop_spec (base : Nat) (hbase : base + 159 < 0xfe00) :
    ∀ (l : List Nat) (st0 : Memory) (o : Nat → Nat) (st' : Memory),
      (∀ j ∈ l, j < 160) →
      dma_loop base l {st0 with gpu := {st0.gpu with oam := o}} = some st' →
      st' = {st0 with gpu := {st0.gpu with oam := oam_after_dma st0 base l o}} ∧
      ∀ j ∈ l, (st0.load (base + j)).isSome := by
  intro l
  induction l with
  | nil =>
    intro st0 o st' _ h
    have hx := Option.some.inj h
    subst hx
    exact ⟨rfl, by intro j hj; cases hj⟩
  | cons i t ih =>
    intro st0 o st' hlt h
    have hi : i < 160 := hlt i (List.mem_cons_self i t)
    unfold dma_loop at h
    have hload : Memory.load {st0 with gpu := {st0.gpu with oam := o}} (base + i) =
        st0.load (base + i) :=
      Memory.load_oam_indep st0 o (base + i) (by omega)
    rw [hload] at h
    cases hl : st0.load (base + i) with
    | none => rw [hl] at h; exact Option.noConfusion h
    | some b =>
      rw [hl] at h
      dsimp only at h
      rw [Gpu.write_oam _ (0xfe00 + i) b (by omega) (by omega)] at h
      dsimp only at h
      rw [show (0xfe00 + i - 0xfe00) = i from by omega] at h
      have hih := ih st0 (upd o i b) st' (fun j hj => hlt j (List.mem_cons_of_mem i hj)) h
      refine ⟨?_, ?_⟩
      · rw [hih.1]
        have : oam_after_dma st0 base (i :: t) o = oam_after_dma st0 base t (upd o i b) := by
          unfold oam_after_dma
          simp only [List.foldl_cons]
          rw [hl]
          rfl
        rw [this]
      · intro j hj
        rcases List.mem_cons.mp hj with hj0 | hj1
        · subst hj0; rw [hl]; rfl
        · exact hih.2 j hj1

/-- Value of an index-wise fold of updates over `List.range n`. -/
theorem foldl_upd_range (f : Nat → Nat) (o : Nat → Nat) (n : Nat) :
    ∀ i, i < n → ((List.range n).foldl (fun o2 j => upd o2 j (f j)) o) i = f i := by
  induction n with
  | zero => intro i h; omega
  | succ k ih =>
    intro i h
    rw [List.range_succ, List.foldl_append]
    simp only [List.foldl_cons, List.foldl_nil]
    by_cases hik : i = k
    · subst hik
      exact upd_same _ _ _
    · rw [upd_other _ _ _ _ hik]
      exact ih i (by omega)

/-- Claim C5: for every bus state and v ≤ 0xF1, if the bus write of v to
0xFF46 completes, then for every i ≤ 0x9F the OAM byte i (read at
0xFE00 + i) equals the byte a bus read of v*0x100 + i returned at the
time of the transfer. -/
theorem C5_oam_dma (st : Memory) (v : Nat) (st' : Memory)
    (hv : v ≤ 0xf1) (hw : st.write 0xff46 v = some st')
    (i : Nat) (hi : i ≤ 0x9f) :
    st.load (v * 256 + i) = some (st'.gpu.read (0xfe00 + i)) := by
  have hdma : st.dma v = some st' := by
    unfold Memory.write at hw
    norm_num at hw
    exact hw
  unfold Memory.dma at hdma
  have hbase : v <<< 8 + 159 < 0xfe00 := by
    rw [Nat.shiftLeft_eq]
    norm_num
    omega
  have hspec := dma_loop_spec (v <<< 8) hbase (List.range 160) st st.gpu.oam st'
    (fun j hj => List.mem_range.mp hj) hdma
  have hsome : (st.load (v <<< 8 + i)).isSome :=
    hspec.2 i (List.mem_range.mpr (by omega))
  obtain ⟨b, hb⟩ := Option.isSome_iff_exists.mp hsome
  have h2 := foldl_upd_range (fun j => (st.load (v <<< 8 + j)).getD 0) st.gpu.oam 160 i
    (by omega)
  dsimp only at h2
  have hread : st'.gpu.read (0xfe00 + i) = (st.load (v <<< 8 + i)).getD 0 := by
    rw [hspec.1]
    rw [Gpu.read_oam _ (0xfe00 + i) (by omega) (by omega)]
    rw [show (0xfe00 + i - 0xfe00) = i from by omega]
    dsimp only
    unfold oam_after_dma
    exact h2
  have hcast : v * 256 + i = v <<< 8 + i := by
    rw [Nat.shiftLeft_eq]
  rw [hcast, hread, hb]
  rfl

set_option maxRecDepth 4000 in
/-- Witness for C5: DMA from 0xC000 on a concrete bus; OAM byte 3 equals
the bus byte read from 0xC003. -/
theorem C5_oam_dma_witness :
    dma_demo_state.load (0xc0 * 256 + 3) = some (dma_demo_out.gpu.read (0xfe00 + 3)) :=
  C5_oam_dma dma_demo_state 0xc0 dma_demo_out (by decide) rfl 3 (by decide)

/-! ## Claim C1: the boot-ROM overlay and writes to 0xFF50 -/

theorem write_ff50 (st : Memory) (v : Nat) : st.write 0xff50 v = some (st.unmap 0x0000) := by
  unfold Memory.write
  norm_num

/-- A bus write to any address other than 0xFF50 never changes the mapping
list (the only `Region` is `Rom`, whose `write` discards; the DMA loop
writes only OAM). -/
theorem write_mappings_ne (st : Memory) (a v : Nat) (st' : Memory) (ha : a ≠ 0xff50)
    (h : st.write a v = some st') : st'.mappings = st.mappings := by
  unfold Memory.write at h
  by_cases c1 : 0x8000 ≤ a ∧ a ≤ 0x9fff
  · rw [if_pos c1] at h
    have hx := Option.some.inj h
    subst hx
    rfl
  · rw [if_neg c1] at h
    by_cases c2 : 0xc000 ≤ a ∧ a ≤ 0xdfff
    · rw [if_pos c2] at h
      have hx := Option.some.inj h
      subst hx
      rfl
    · rw [if_neg c2] at h
      by_cases c3 : 0xfe00 ≤ a ∧ a ≤ 0xfe9f
      · rw [if_pos c3] at h
        have hx := Option.some.inj h
        subst hx
        rfl
      · rw [if_neg c3] at h
        by_cases c4 : a = 0xff00
        · rw [if_pos c4] at h
          have hx := Option.some.inj h
          subst hx
          rfl
        · rw [if_neg c4] at h
          by_cases c5 : a = 0xff01 ∨ a = 0xff02
          · rw [if_pos c5] at h
            have hx := Option.some.inj h
            subst hx
            rfl
          · rw [if_neg c5] at h
            by_cases c6 : a = 0xff40 ∨ a = 0xff41 ∨ a = 0xff42
            · rw [if_pos c6] at h
              have hx := Option.some.inj h
              subst hx
              rfl
            · rw [if_neg c6] at h
              by_cases c7 : a = 0xff44
              · rw [if_pos c7] at h
                exact Option.noConfusion h
              · rw [if_neg c7] at h
                by_cases c8 : a = 0xff45
                · rw [if_pos c8] at h
                  have hx := Option.some.inj h
                  subst hx
                  rfl
                · rw [if_neg c8] at h
                  by_cases c9 : a = 0xff46
                  · rw [if_pos c9] at h
                    unfold Memory.dma at h
                    exact dma_loop_mappings _ _ _ _ h
                  · rw [if_neg c9] at h
                    by_cases c10 : 0xff47 ≤ a ∧ a ≤ 0xff48
                    · rw [if_pos c10] at h
                      have hx := Option.some.inj h
                      subst hx
                      rfl
                    · rw [if_neg c10] at h
                      rw [if_neg ha] at h
                      by_cases c12 : 0xff80 ≤ a ∧ a ≤ 0xfffe
                      · rw [if_pos c12] at h
                        have hx := Option.some.inj h
                        subst hx
                        rfl
                      · rw [if_neg c12] at h
                        by_cases c13 : a = 0xffff
                        · rw [if_pos c13] at h
                          have hx := Option.some.inj h
                          subst hx
                          rfl
                        · rw [if_neg c13] at h
                          have hx := Option.some.inj h
                          subst hx
                          rfl

/-- Effect of a write sequence on the mapping list, by the number of
writes to 0xFF50 it contains: none leave the mappings alone; exactly one
removes the first mapping covering 0x0000. -/
theorem apply_writes_mappings (ops : List (Nat × Nat)) :
    ∀ (st st' : Memory),
      Memory.apply_writes ops st = some st' →
      (ops.countP (fun q => decide (q.1 = 0xff50)) = 0 → st'.mappings = st.mappings) ∧
      (ops.countP (fun q => decide (q.1 = 0xff50)) = 1 →
        st'.mappings = unmap_mappings st.mappings 0x0000) := by
  induction ops with
  | nil =>
    intro st st' h
    have hx := Option.some.inj h
    subst hx
    exact ⟨fun _ => rfl, fun hc => by simp at hc⟩
  | cons p t ih =>
    intro st st' h
    obtain ⟨a, v⟩ := p
    unfold Memory.apply_writes at h
    cases hw : st.write a v with
    | none => rw [hw] at h; exact Option.noConfusion h
    | some st1 =>
      rw [hw] at h
      dsimp only at h
      by_cases ha : a = 0xff50
      · subst ha
        have hst1 : st1 = st.unmap 0x0000 := by
          rw [write_ff50 st v] at hw
          exact (Option.some.inj hw).symm
        have hcnt : (((0xff50 : Nat), v) :: t).countP (fun q => decide (q.1 = 0xff50)) =
            t.countP (fun q => decide (q.1 = 0xff50)) + 1 := by
          simp [List.countP_cons]
        constructor
        · intro hc
          rw [hcnt] at hc
          omega
        · intro hc
          rw [hcnt] at hc
          have hct : t.countP (fun q => decide (q.1 = 0xff50)) = 0 := by omega
          rw [(ih st1 st' h).1 hct, hst1]
          rfl
      · have hcnt : ((a, v) :: t).countP (fun q => decide (q.1 = 0xff50)) =
            t.countP (fun q => decide (q.1 = 0xff50)) := by
          simp [List.countP_cons, ha]
        have hm : st1.mappings = st.mappings := write_mappings_ne st a v st1 ha hw
        refine ⟨fun hc => ?_, fun hc => ?_⟩
        · rw [hcnt] at hc
          rw [(ih st1 st' h).1 hc, hm]
        · rw [hcnt] at hc
          rw [(ih st1 st' h).2 hc, hm]

/-- A bus read resolves through the first covering mapping. -/
theorem load_mapped (st : Memory) (mp : Mapping) (rest : List Mapping) (i : Nat)
    (hm : st.mappings = mp :: rest) (hcov : mp.covers i = true) :
    st.load i = mp.data.get? (i - mp.start) := by
  unfold Memory.load Memory.mapping
  rw [hm, List.find?_cons_of_pos rest hcov]

theorem unmap_startup (boot cart : List Nat) (hb : boot.length = 256) :
    unmap_mappings [⟨0, boot⟩, ⟨0, cart⟩] 0x0000 = [⟨0, cart⟩] := by
  unfold unmap_mappings
  have hcov : Mapping.covers ⟨0, boot⟩ 0x0000 = true := by
    unfold Mapping.covers
    simp [hb]
  rw [List.findIdx?_cons, hcov]
  rfl

/-- Claim C1 as amended: after startup with a boot ROM mapped at 0x0000
(then the cartridge ROM, also at 0x0000), a bus read of any address in
0x0000–0x00FF returns the corresponding boot-ROM byte if no write to
0xFF50 has occurred, and the corresponding cartridge-ROM byte if EXACTLY
ONE write to 0xFF50 has occurred.  (Not "at least one": a second write to
0xFF50 removes the cartridge mapping as well — see the counterexample.) -/
theorem C1_boot_rom_overlay (boot cart : List Nat) (ops : List (Nat × Nat)) (st' : Memory)
    (hboot : boot.length = 256) (hcart : 256 ≤ cart.length)
    (happ : Memory.apply_writes ops (Memory.startup boot cart) = some st')
    (i : Nat) (hi : i < 256) :
    (ops.countP (fun q => decide (q.1 = 0xff50)) = 0 → st'.load i = boot.get? i) ∧
    (ops.countP (fun q => decide (q.1 = 0xff50)) = 1 → st'.load i = cart.get? i) := by
  have hmap := apply_writes_mappings ops (Memory.startup boot cart) st' happ
  constructor
  · intro hc
    have hm : st'.mappings = [⟨0, boot⟩, ⟨0, cart⟩] := hmap.1 hc
    have hcov : Mapping.covers ⟨0, boot⟩ i = true := by
      unfold Mapping.covers
      simp [hboot]
      omega
    have hl := load_mapped st' ⟨0, boot⟩ [⟨0, cart⟩] i hm hcov
    simpa using hl
  · intro hc
    have hm : st'.mappings = unmap_mappings [⟨0, boot⟩, ⟨0, cart⟩] 0x0000 := hmap.2 hc
    rw [unmap_startup boot cart hboot] at hm
    have hcov : Mapping.covers ⟨0, cart⟩ i = true := by
      unfold Mapping.covers
      simp
      omega
    have hl := load_mapped st' ⟨0, cart⟩ [] i hm hcov
    simpa using hl

set_option maxRecDepth 4000 in
/-- Witness for C1 (amended): with no writes the boot byte is read; with
one 0xFF50 write the cartridge byte is read. -/
theorem C1_boot_rom_overlay_witness :
    ((([] : List (Nat × Nat)).countP (fun q => decide (q.1 = 0xff50)) = 0 →
        c1_state.load 0 = boot_bytes.get? 0) ∧
     (([] : List (Nat × Nat)).countP (fun q => decide (q.1 = 0xff50)) = 1 →
        c1_state.load 0 = cart_bytes.get? 0)) :=
  C1_boot_rom_overlay boot_bytes cart_bytes [] c1_state (by decide) (by decide)
    rfl 0 (by decide)

set_option maxRecDepth 4000 in
/-- Counterexample to claim C1 as stated: two writes to 0xFF50 also unmap
the cartridge ROM mapping (`Memory::unmap` removes whatever mapping
covers 0x0000), after which a read of address 0 panics on the empty
internal `cartridge` vector (`none`) instead of returning the cartridge
byte 0xBB. -/
theorem C1_second_write_counterexample :
    Memory.apply_writes [(0xff50, 1), (0xff50, 1)] c1_state = some c1_after_two ∧
    c1_after_two.load 0 = none ∧
    cart_bytes.get? 0 = some 0xbb :=
  ⟨rfl, rfl, rfl⟩

end Gameperson
